import Mathlib

/-!
# Wealthfolio device-sync engine: a shallow embedding with correctness proofs

This file embeds the core of the Wealthfolio device-sync engine in Lean 4 and
proves (or refutes) the specification claims about it:

* the last-writer-wins (LWW) decision function `should_apply_lww`
  (`crates/core/src/sync/app_sync_model.rs`), including a faithful model of
  `chrono::DateTime::parse_from_rfc3339` followed by `timestamp_millis`;
* the replay applier `apply_remote_event_lww_tx` and its batch variant
  (`crates/storage-sqlite/src/sync/app_sync/repository.rs`), over an explicit
  state for the sync tables with a trace of the row-mutating SQL statements;
* the cursor store operations `get_cursor` / `set_cursor`;
* the snapshot-upload validation of `DeviceSyncClient` and the strict
  snapshot-id validator (`crates/device-sync/src/client.rs`);
* the sync cycle `run_sync_cycle`
  (`apps/tauri/src/commands/device_sync/engine.rs`) as a deterministic
  function of an environment of collaborator responses.

Functions that live outside the embedded crates (the crypto module, JSON
decoding by `serde_json`) are either modelled from the specification
(`sha256_checksum`) or passed in as parameters of the environment.
-/

namespace Wealthfolio

set_option maxRecDepth 100000

/-! ## String helpers

Rust compares `String`s by their UTF-8 bytes.  Lexicographic order on UTF-8
byte sequences coincides with lexicographic order on code points, so we
compare the code points of the characters directly. -/

/-- Byte-lexicographic strict order on strings, as Rust's `>`/`<` on `String`
(UTF-8 bytes; equivalently code points). -/
def charListLt : List Char → List Char → Bool
  | [], [] => false
  | _ :: _, [] => false
  | [], _ :: _ => true
  | c :: cs, d :: ds =>
    if c.toNat < d.toNat then true
    else if c.toNat == d.toNat then charListLt cs ds
    else false

/-- `a` is strictly before `b` in Rust string order. -/
def strLtB (a b : String) : Bool := charListLt a.data b.data

/-! ## RFC3339 timestamps

Model of `chrono::DateTime::parse_from_rfc3339`.  The grammar accepted by
chrono's `parse_rfc3339`:

  `YYYY-MM-DD` , a separator in `{T, t, space}` , `hh:mm:ss` , an optional
  fraction `.d+` (first nine digits significant), and an offset
  (`Z`/`z`, or `±hh:mm` with minutes `≤ 59` and total `< 86400 s`);
  the whole input must be consumed.

Validation (chrono's `Parsed::to_datetime`): the calendar date must exist,
`hour ≤ 23`, `minute ≤ 59`, `second ≤ 60` where `60` denotes a leap second
represented as second `59` with an extra `10⁹` nanoseconds. -/

structure Rfc3339Fields where
  year : Nat
  month : Nat
  day : Nat
  hour : Nat
  minute : Nat
  second : Nat
  nano : Nat
  offsetSecs : Int
  deriving Repr, DecidableEq

/-- Read exactly `n` ASCII digits, returning their value. -/
def readFixedNat : Nat → Nat → List Char → Option (Nat × List Char)
  | 0, acc, s => some (acc, s)
  | k + 1, acc, s =>
    match s with
    | [] => none
    | c :: rest =>
      if c.isDigit then readFixedNat k (acc * 10 + (c.toNat - 48)) rest else none

/-- Split off the maximal run of leading ASCII digits. -/
def takeDigits : List Char → List Char × List Char
  | [] => ([], [])
  | c :: rest =>
    if c.isDigit then
      let (ds, r) := takeDigits rest
      (c :: ds, r)
    else ([], c :: rest)

/-- Value of a digit list. -/
def digitsVal (ds : List Char) : Nat := ds.foldl (fun a c => a * 10 + (c.toNat - 48)) 0

/-- Fractional seconds after the `.`: at least one digit, the first nine
significant (chrono's `scan::nanosecond`), further digits skipped. -/
def readNanosecond (s : List Char) : Option (Nat × List Char) :=
  let (ds, rest) := takeDigits s
  if ds.isEmpty then none
  else
    let ds9 := ds.take 9
    some (digitsVal ds9 * 10 ^ (9 - ds9.length), rest)

/-- Offset parser: `Z`/`z`, or `±hh:mm` with `mm ≤ 59`; the caller's
`< 86400` bound makes the hour field effectively `≤ 23`. -/
def readOffset (s : List Char) : Option (Int × List Char) :=
  match s with
  | 'Z' :: rest => some (0, rest)
  | 'z' :: rest => some (0, rest)
  | c :: rest =>
    if c = '+' || c = '-' then
      match readFixedNat 2 0 rest with
      | none => none
      | some (h, rest1) =>
        match rest1 with
        | ':' :: rest2 =>
          match readFixedNat 2 0 rest2 with
          | none => none
          | some (m, rest3) =>
            if m ≥ 60 then none
            else
              let total : Int := (h * 3600 + m * 60 : Nat)
              if total ≥ 86400 then none
              else some (if c = '-' then -total else total, rest3)
        | _ => none
    else none
  | [] => none

/-- Days in a month of the proleptic Gregorian calendar. -/
def daysInMonth (y m : Nat) : Nat :=
  let leap := y % 4 == 0 && (y % 100 != 0 || y % 400 == 0)
  match m with
  | 1 => 31 | 2 => if leap then 29 else 28 | 3 => 31 | 4 => 30 | 5 => 31
  | 6 => 30 | 7 => 31 | 8 => 31 | 9 => 30 | 10 => 31 | 11 => 30 | 12 => 31
  | _ => 0

/-- `chrono::DateTime::parse_from_rfc3339`, up to the validated field set. -/
def parseRfc3339 (input : String) : Option Rfc3339Fields :=
  match readFixedNat 4 0 input.data with
  | none => none
  | some (y, r1) =>
    match r1 with
    | '-' :: r2 =>
      match readFixedNat 2 0 r2 with
      | none => none
      | some (mo, r3) =>
        match r3 with
        | '-' :: r4 =>
          match readFixedNat 2 0 r4 with
          | none => none
          | some (d, r5) =>
            match r5 with
            | sep :: r6 =>
              if sep = 'T' || sep = 't' || sep = ' ' then
                match readFixedNat 2 0 r6 with
                | none => none
                | some (h, r7) =>
                  match r7 with
                  | ':' :: r8 =>
                    match readFixedNat 2 0 r8 with
                    | none => none
                    | some (mi, r9) =>
                      match r9 with
                      | ':' :: r10 =>
                        match readFixedNat 2 0 r10 with
                        | none => none
                        | some (sec, r11) =>
                          let fracParsed : Option (Nat × List Char) :=
                            match r11 with
                            | '.' :: r12 => readNanosecond r12
                            | _ => some (0, r11)
                          match fracParsed with
                          | none => none
                          | some (nano, r13) =>
                            match readOffset r13 with
                            | none => none
                            | some (off, r14) =>
                              if r14.isEmpty &&
                                  1 ≤ mo && mo ≤ 12 && 1 ≤ d && d ≤ daysInMonth y mo &&
                                  h ≤ 23 && mi ≤ 59 && sec ≤ 60 then
                                some ⟨y, mo, d, h, mi, sec, nano, off⟩
                              else none
                      | _ => none
                  | _ => none
              else none
            | [] => none
        | _ => none
    | _ => none

/-- Days from 1970-01-01 of a civil date (proleptic Gregorian). -/
def daysFromCivil (y : Int) (m d : Nat) : Int :=
  let y' : Int := if m ≤ 2 then y - 1 else y
  let era : Int := Int.fdiv y' 400
  let yoe : Int := y' - era * 400
  let mp : Int := if m > 2 then (m : Int) - 3 else (m : Int) + 9
  let doy : Int := Int.fdiv (153 * mp + 2) 5 + (d : Int) - 1
  let doe : Int := yoe * 365 + Int.fdiv yoe 4 - Int.fdiv yoe 100 + doy
  era * 146097 + doe - 719468

/-- Leap-second normalisation: second `60` is second `59` plus `10⁹` ns. -/
def normalizedSecNano (f : Rfc3339Fields) : Nat × Nat :=
  if f.second == 60 then (59, f.nano + 1000000000) else (f.second, f.nano)

/-- UTC seconds since the epoch (floor), as `chrono`'s `timestamp()`. -/
def epochSecs (f : Rfc3339Fields) : Int :=
  let (s, _) := normalizedSecNano f
  daysFromCivil (f.year : Int) f.month f.day * 86400 +
    ((f.hour * 3600 + f.minute * 60 + s : Nat) : Int) - f.offsetSecs

/-- `chrono`'s `timestamp_millis()`: epoch seconds times 1000 plus the
millisecond part of the (possibly leap-extended) nanosecond field. -/
def instantMillis (f : Rfc3339Fields) : Int :=
  epochSecs f * 1000 + (((normalizedSecNano f).2 / 1000000 : Nat) : Int)

/-- Exact instant in nanoseconds since the epoch. -/
def instantNanos (f : Rfc3339Fields) : Int :=
  epochSecs f * 1000000000 + (((normalizedSecNano f).2 : Nat) : Int)

/-- `parse_from_rfc3339(ts).map(|dt| dt.timestamp_millis())`. -/
def parseRfc3339Millis (ts : String) : Option Int :=
  (parseRfc3339 ts).map instantMillis

/-- The RFC3339 instant denoted by `ts`, at full (nanosecond) resolution. -/
def parseRfc3339Nanos (ts : String) : Option Int :=
  (parseRfc3339 ts).map instantNanos

/-! ## The LWW decision function

`should_apply_lww` from `crates/core/src/sync/app_sync_model.rs`. -/

/-- `should_apply_lww(local_client_timestamp, local_event_id,
remote_client_timestamp, remote_event_id)`. -/
def shouldApplyLww (localTs localId remoteTs remoteId : String) : Bool :=
  match parseRfc3339Millis localTs, parseRfc3339Millis remoteTs with
  | some l, some r =>
    if r > l then true
    else if r == l then strLtB localId remoteId
    else false
  | _, _ =>
    -- Fallback to lexical ordering when one/both timestamps are non-RFC3339.
    if strLtB localTs remoteTs then true
    else if localTs == remoteTs then strLtB localId remoteId
    else false

/-- The claim's reading of the LWW rule: apply iff the remote timestamp is a
strictly later RFC3339 *instant* (full resolution), or the instants are equal
and the remote event id is lexicographically greater; lexical fallback with
the same tie-break when a timestamp fails to parse. -/
def lwwClaimInstant (localTs localId remoteTs remoteId : String) : Bool :=
  match parseRfc3339Nanos localTs, parseRfc3339Nanos remoteTs with
  | some l, some r => decide (l < r) || (decide (l = r) && strLtB localId remoteId)
  | _, _ => strLtB localTs remoteTs || (localTs == remoteTs && strLtB localId remoteId)

/-- The amended reading: the comparison of well-formed timestamps happens at
millisecond resolution (`timestamp_millis`), not at full instant resolution. -/
def lwwClaimMillis (localTs localId remoteTs remoteId : String) : Bool :=
  match parseRfc3339Millis localTs, parseRfc3339Millis remoteTs with
  | some l, some r => decide (l < r) || (decide (l = r) && strLtB localId remoteId)
  | _, _ => strLtB localTs remoteTs || (localTs == remoteTs && strLtB localId remoteId)


/-! ## JSON values

`serde_json::Value`.  A number is kept as its rendered decimal string, which
is all the replay path ever uses (`v.to_string()`). -/

inductive Json where
  | null
  | bool (b : Bool)
  | num (rendered : String)
  | str (s : String)
  | arr (elems : List Json)
  | obj (fields : List (String × Json))

/-- `payload_value_matches_entity_id` from the repository. -/
def payloadValueMatchesEntityId : Json → String → Bool
  | .str v, entityId => v == entityId
  | .num v, entityId => v == entityId
  | .bool v, entityId => (if v then "true" else "false") == entityId
  | _, _ => false

/-! ## Sync entities and operations -/

inductive SyncEntity where
  | account | asset | assetTaxonomyAssignment | activity | activityImportProfile
  | goal | goalsAllocation | aiThread | aiMessage | aiThreadTag
  | contributionLimit | platform | snapshot
  deriving DecidableEq, Repr

inductive SyncOperation where
  | create | update | delete | request
  deriving DecidableEq, Repr

/-- The serde `snake_case` string stored in the sync tables (`enum_to_db`). -/
def entityToDb : SyncEntity → String
  | .account => "account"
  | .asset => "asset"
  | .assetTaxonomyAssignment => "asset_taxonomy_assignment"
  | .activity => "activity"
  | .activityImportProfile => "activity_import_profile"
  | .goal => "goal"
  | .goalsAllocation => "goals_allocation"
  | .aiThread => "ai_thread"
  | .aiMessage => "ai_message"
  | .aiThreadTag => "ai_thread_tag"
  | .contributionLimit => "contribution_limit"
  | .platform => "platform"
  | .snapshot => "holdings_snapshot_entity_unused"

/-- `entity_storage_mapping`: mapped table name and primary-key column. -/
def entityStorageMapping : SyncEntity → Option (String × String)
  | .account => some ("accounts", "id")
  | .asset => some ("assets", "id")
  | .assetTaxonomyAssignment => some ("asset_taxonomy_assignments", "id")
  | .activity => some ("activities", "id")
  | .activityImportProfile => some ("activity_import_profiles", "account_id")
  | .goal => some ("goals", "id")
  | .goalsAllocation => some ("goals_allocation", "id")
  | .aiThread => some ("ai_threads", "id")
  | .aiMessage => some ("ai_messages", "id")
  | .aiThreadTag => some ("ai_thread_tags", "id")
  | .contributionLimit => some ("contribution_limits", "id")
  | .platform => some ("platforms", "id")
  | .snapshot => some ("holdings_snapshots", "id")

/-! ## Sync store state

State of the sync control-plane tables.  The *content* of the mapped domain
tables is abstracted by the trace of row-mutating dynamic SQL statements the
applier issues (`diesel::sql_query` in the source); a statement record keeps
the table, primary-key column and structured values from which the source
renders the SQL text. -/

structure AppliedEventRow where
  eventId : String
  seq : Int
  entity : String
  entityId : String
  appliedAt : String
  deriving DecidableEq, Repr

structure EntityMetadataRow where
  entity : String
  entityId : String
  lastEventId : String
  lastClientTimestamp : String
  lastSeq : Int
  deriving DecidableEq, Repr

structure TableStateRow where
  tableName : String
  enabled : Int
  lastSnapshotRestoreAt : Option String
  lastIncrementalApplyAt : Option String
  deriving DecidableEq, Repr

/-- A row-mutating dynamic SQL statement issued against a domain table. -/
inductive SqlEffect where
  | deleteRow (table pkColumn entityId : String)
  | upsertRow (table pkColumn : String) (fields : List (String × Json))

structure SyncDb where
  appliedEvents : List AppliedEventRow
  entityMetadata : List EntityMetadataRow
  tableState : List TableStateRow
  /-- `PRAGMA table_xinfo` column names of the local schema, per table. -/
  schemas : List (String × List String)

inductive DbError where
  | internal (msg : String)

/-- `sync_applied_events` insert with `ON CONFLICT (event_id) DO NOTHING`. -/
def insertAppliedEvent (rows : List AppliedEventRow) (row : AppliedEventRow) :
    List AppliedEventRow :=
  if rows.any (fun r => r.eventId == row.eventId) then rows else rows ++ [row]

/-- `sync_entity_metadata` upsert keyed by `(entity, entity_id)`. -/
def upsertEntityMetadata (rows : List EntityMetadataRow)
    (entityDb entityId eventId clientTs : String) (seq : Int) : List EntityMetadataRow :=
  if rows.any (fun m => m.entity == entityDb && m.entityId == entityId) then
    rows.map (fun m =>
      if m.entity == entityDb && m.entityId == entityId then
        { m with lastEventId := eventId, lastClientTimestamp := clientTs, lastSeq := seq }
      else m)
  else rows ++ [⟨entityDb, entityId, eventId, clientTs, seq⟩]

/-- `sync_table_state` upsert marking an incremental apply at `now`. -/
def upsertTableState (now : String) (rows : List TableStateRow) (tableName : String) :
    List TableStateRow :=
  if rows.any (fun r => r.tableName == tableName) then
    rows.map (fun r =>
      if r.tableName == tableName then
        { r with enabled := 1, lastIncrementalApplyAt := some now }
      else r)
  else rows ++ [⟨tableName, 1, none, some now⟩]

/-- Column names of a table in the local schema (`load_table_columns`; a
missing table yields no columns, as `PRAGMA table_xinfo` returns no rows). -/
def knownColumns (db : SyncDb) (tableName : String) : List String :=
  ((db.schemas.find? (fun p => p.1 == tableName)).map Prod.snd).getD []

/-- `validate_payload_columns`: every field name must be a column of the
table's actual schema (the column cache is transparent: it always holds the
`PRAGMA` result for the table). -/
def validatePayloadColumns (db : SyncDb) (tableName : String)
    (fields : List (String × Json)) : Except DbError Unit :=
  match fields.find? (fun kv => !((knownColumns db tableName).contains kv.1)) with
  | some kv =>
    .error (.internal ("Sync payload column '" ++ kv.1 ++ "' is not valid for table '"
      ++ tableName ++ "'"))
  | none => .ok ()

/-- First field of a JSON object with the given key (`Map::get`). -/
def lookupField (fields : List (String × Json)) (key : String) : Option Json :=
  (fields.find? (fun kv => kv.1 == key)).map Prod.snd

/-- The field list sent to the upsert: the payload's fields, with the
primary-key column force-injected when absent. -/
def injectPk (payloadObj : List (String × Json)) (pkName entityId : String) :
    List (String × Json) :=
  if payloadObj.any (fun kv => kv.1 == pkName) then payloadObj
  else payloadObj ++ [(pkName, Json.str entityId)]

/-- The LWW decision for an incoming event against the stored metadata of its
entity: no metadata row means apply. -/
def lwwWins (db : SyncDb) (entityDb entityId clientTs eventId : String) : Bool :=
  match db.entityMetadata.find? (fun m => m.entity == entityDb && m.entityId == entityId) with
  | some meta => shouldApplyLww meta.lastClientTimestamp meta.lastEventId clientTs eventId
  | none => true

/-- The claim's validity condition for a replayed upsert payload: every key of
the payload object is a column of the mapped table, and the payload's
primary-key field, when present, equals the event's entity id. -/
def payloadValidForTable (cols : List String) (pkName entityId : String)
    (payloadObj : List (String × Json)) : Bool :=
  payloadObj.all (fun kv => cols.contains kv.1) &&
    (match lookupField payloadObj pkName with
     | some v => payloadValueMatchesEntityId v entityId
     | none => true)

/-- The domain-table statement of one replay apply: the `DELETE`, or the
validated `INSERT … ON CONFLICT(pk) DO UPDATE` with the primary key
force-injected when absent from the payload. -/
def domainStatement (db : SyncDb) (tableName pkName : String) (op : SyncOperation)
    (entityId : String) (payload : Json) : Except DbError (List SqlEffect) :=
  match op with
  | .delete => .ok [.deleteRow tableName pkName entityId]
  | _ =>
    match payload with
    | .obj payloadObj =>
      let pkCheck : Except DbError Unit :=
        match lookupField payloadObj pkName with
        | some v =>
          if payloadValueMatchesEntityId v entityId then .ok ()
          else
            .error (.internal ("Sync payload PK '" ++ pkName
              ++ "' does not match entity_id '" ++ entityId ++ "'"))
        | none => .ok ()
      match pkCheck with
      | .error e => .error e
      | .ok _ =>
        let fields := injectPk payloadObj pkName entityId
        match validatePayloadColumns db tableName fields with
        | .error e => .error e
        | .ok _ => .ok [.upsertRow tableName pkName fields]
    | _ => .error (.internal "Sync payload must be a JSON object")

/-- The `should_apply` block of `apply_remote_event_lww_tx`: when the event
wins LWW, issue the domain-table statement and upsert table state and entity
metadata; when it loses, change nothing.  The applied-event log is recorded
afterwards by `applyFreshEvent`, exactly as in the source where that insert
sits outside the `if should_apply` block. -/
def applyFreshCore (now : String) (db : SyncDb) (entity : SyncEntity)
    (entityId : String) (op : SyncOperation) (eventId clientTs : String)
    (seq : Int) (payload : Json) : List SqlEffect × Except DbError (SyncDb × Bool) :=
  let entityDb := entityToDb entity
  if lwwWins db entityDb entityId clientTs eventId then
    match entityStorageMapping entity with
    | some (tableName, pkName) =>
      match domainStatement db tableName pkName op entityId payload with
      | .error e => ([], .error e)
      | .ok effects =>
        let tableState' := upsertTableState now db.tableState tableName
        let metadata' := upsertEntityMetadata db.entityMetadata entityDb entityId eventId clientTs seq
        (effects, .ok ({ db with tableState := tableState', entityMetadata := metadata' }, true))
    | none =>
      let metadata' := upsertEntityMetadata db.entityMetadata entityDb entityId eventId clientTs seq
      ([], .ok ({ db with entityMetadata := metadata' }, true))
  else ([], .ok (db, false))

/-- Body of `apply_remote_event_lww_tx` after the idempotency check failed to
find the event (the event is fresh): run the `should_apply` block, then
record the event in the applied-event log (on-conflict do-nothing) and return
whether it was applied. -/
def applyFreshEvent (now : String) (db : SyncDb) (entity : SyncEntity)
    (entityId : String) (op : SyncOperation) (eventId clientTs : String)
    (seq : Int) (payload : Json) : List SqlEffect × Except DbError (SyncDb × Bool) :=
  match applyFreshCore now db entity entityId op eventId clientTs seq payload with
  | (tr, .error e) => (tr, .error e)
  | (tr, .ok (db1, shouldApply)) =>
    let applied' := insertAppliedEvent db1.appliedEvents
      ⟨eventId, seq, entityToDb entity, entityId, now⟩
    (tr, .ok ({ db1 with appliedEvents := applied' }, shouldApply))

/-- `apply_remote_event_lww_tx`: one replay apply inside the transaction.
Returns the trace of row-mutating domain-table statements it executed and,
unless a validation error aborts the transaction, the updated sync state and
whether the event won LWW. -/
def applyRemoteEventLwwTx (now : String) (db : SyncDb) (entity : SyncEntity)
    (entityId : String) (op : SyncOperation) (eventId clientTs : String)
    (seq : Int) (payload : Json) : List SqlEffect × Except DbError (SyncDb × Bool) :=
  if db.appliedEvents.any (fun r => r.eventId == eventId) then
    ([], .ok (db, false))
  else
    applyFreshEvent now db entity entityId op eventId clientTs seq payload

/-- One event of the batch replay entry point. -/
structure BatchEvent where
  entity : SyncEntity
  entityId : String
  op : SyncOperation
  eventId : String
  clientTimestamp : String
  seq : Int
  payload : Json

/-- `apply_remote_events_lww_batch`: sequential replay of a pulled batch in
one transaction; the first failure aborts the whole batch, and `applied`
counts the events for which `apply_remote_event_lww_tx` returned `true`. -/
def applyRemoteEventsLwwBatch (now : String) (db : SyncDb) (events : List BatchEvent) :
    List SqlEffect × Except DbError (SyncDb × Nat) :=
  match events with
  | [] => ([], .ok (db, 0))
  | e :: rest =>
    match applyRemoteEventLwwTx now db e.entity e.entityId e.op e.eventId
        e.clientTimestamp e.seq e.payload with
    | (tr, .error (.internal msg)) =>
      (tr, .error (.internal ("Replay apply failed for entity=" ++ entityToDb e.entity
        ++ " entity_id=" ++ e.entityId ++ " event_id=" ++ e.eventId ++ ": " ++ msg)))
    | (tr, .ok (db1, applied)) =>
      let (trRest, res) := applyRemoteEventsLwwBatch now db1 rest
      (tr ++ trRest,
        match res with
        | .error e2 => .error e2
        | .ok (dbEnd, n) => .ok (dbEnd, (if applied then 1 else 0) + n))

/-! ## Cursor store

`AppSyncRepository::get_cursor` / `set_cursor`; the `sync_cursor` table holds
at most the single row with `id = 1`. -/

structure SyncCursorRow where
  id : Int
  cursor : Int
  updatedAt : String
  deriving DecidableEq, Repr

/-- `get_cursor`: the stored cursor, defaulting to 0 when the row is absent. -/
def getCursor (row : Option SyncCursorRow) : Int :=
  (row.map (fun r => r.cursor)).getD 0

/-- `set_cursor`: insert of row `id = 1` with
`ON CONFLICT (id) DO UPDATE SET cursor, updated_at` — an unconditional
upsert. -/
def setCursor (_row : Option SyncCursorRow) (cursorValue : Int) (now : String) :
    Option SyncCursorRow :=
  some ⟨1, cursorValue, now⟩

/-- The claim's statement of the cursor contract: a `set_cursor(v)` call only
takes effect when `v` is at least the current cursor. -/
def cursorAdvanceOnlyClaim : Prop :=
  ∀ (row : Option SyncCursorRow) (v : Int) (now : String),
    getCursor (setCursor row v now) = if getCursor row ≤ v then v else getCursor row

/-! ## Byte-level helpers and SHA-256

The device-sync crypto module is not among the embedded sources.
Modelled from the spec: `sha256_checksum(bytes) → "sha256:<64 hex chars>"`,
realised as the standard SHA-256 digest rendered as lowercase hex.  Bytes are
natural numbers below 256. -/

def asciiLowerChar (c : Char) : Char :=
  if 'A' ≤ c && c ≤ 'Z' then Char.ofNat (c.toNat + 32) else c

def asciiUpperChar (c : Char) : Char :=
  if 'a' ≤ c && c ≤ 'z' then Char.ofNat (c.toNat - 32) else c

/-- Rust's `str::to_ascii_lowercase`. -/
def toAsciiLowercase (s : String) : String := String.mk (s.data.map asciiLowerChar)

/-- Rust's `str::to_ascii_uppercase`. -/
def toAsciiUppercase (s : String) : String := String.mk (s.data.map asciiUpperChar)

/-- Rust's `str::eq_ignore_ascii_case` (only ASCII letters fold, so the
byte-wise source comparison and this character-wise one agree). -/
def eqIgnoreAsciiCase (a b : String) : Bool :=
  a.data.map asciiLowerChar == b.data.map asciiLowerChar

/-- Rust's `u8::is_ascii_hexdigit`, on characters. -/
def isAsciiHexdigitChar (c : Char) : Bool :=
  c.isDigit || ('a' ≤ c && c ≤ 'f') || ('A' ≤ c && c ≤ 'F')

def stripPrefixChars : List Char → List Char → Option (List Char)
  | [], s => some s
  | p :: ps, c :: cs => if p == c then stripPrefixChars ps cs else none
  | _ :: _, [] => none

/-- Rust's `str::strip_prefix`. -/
def stripPrefixStr (s pre : String) : Option String :=
  (stripPrefixChars pre.data s.data).map String.mk

def rotr32 (n x : Nat) : Nat := ((x >>> n) ||| (x <<< (32 - n))) % 4294967296

def sha256ChF (x y z : Nat) : Nat := (x &&& y) ^^^ ((x ^^^ 4294967295) &&& z)

def sha256MajF (p q r : Nat) : Nat := (p &&& q) ^^^ (p &&& r) ^^^ (q &&& r)

def sha256BigSigma0 (x : Nat) : Nat := rotr32 2 x ^^^ rotr32 13 x ^^^ rotr32 22 x

def sha256BigSigma1 (x : Nat) : Nat := rotr32 6 x ^^^ rotr32 11 x ^^^ rotr32 25 x

def sha256SmallSigma0 (x : Nat) : Nat := rotr32 7 x ^^^ rotr32 18 x ^^^ (x >>> 3)

def sha256SmallSigma1 (x : Nat) : Nat := rotr32 17 x ^^^ rotr32 19 x ^^^ (x >>> 10)

def sha256K : List Nat :=
  [1116352408, 1899447441, 3049323471, 3921009573, 961987163, 1508970993,
   2453635748, 2870763221, 3624381080, 310598401, 607225278, 1426881987,
   1925078388, 2162078206, 2614888103, 3248222580, 3835390401, 4022224774,
   264347078, 604807628, 770255983, 1249150122, 1555081692, 1996064986,
   2554220882, 2821834349, 2952996808, 3210313671, 3336571891, 3584528711,
   113926993, 338241895, 666307205, 773529912, 1294757372, 1396182291,
   1695183700, 1986661051, 2177026350, 2456956037, 2730485921, 2820302411,
   3259730800, 3345764771, 3516065817, 3600352804, 4094571909, 275423344,
   430227734, 506948616, 659060556, 883997877, 958139571, 1322822218,
   1537002063, 1747873779, 1955562222, 2024104815, 2227730452, 2361852424,
   2428436474, 2756734187, 3204031479, 3329325298]

def sha256InitH : List Nat :=
  [1779033703, 3144134277, 1013904242, 2773480762,
   1359893119, 2600822924, 528734635, 1541459225]

/-- Big-endian 8-byte encoding of the bit length. -/
def beBytes8 (n : Nat) : List Nat :=
  [(n >>> 56) % 256, (n >>> 48) % 256, (n >>> 40) % 256, (n >>> 32) % 256,
   (n >>> 24) % 256, (n >>> 16) % 256, (n >>> 8) % 256, n % 256]

/-- SHA-256 message padding. -/
def sha256Pad (msg : List Nat) : List Nat :=
  let padZeros := (119 - msg.length % 64) % 64
  msg ++ [128] ++ List.replicate padZeros 0 ++ beBytes8 (msg.length * 8)

/-- Big-endian grouping of bytes into 32-bit words. -/
def bytesToWords : List Nat → List Nat
  | a :: b :: c :: d :: rest => (((a * 256 + b) * 256 + c) * 256 + d) :: bytesToWords rest
  | _ => []

/-- Extend a 16-word block by `fuel` scheduled words. -/
def sha256ExtendW (w : List Nat) : Nat → List Nat
  | 0 => w
  | k + 1 =>
    let i := w.length
    let nw := (sha256SmallSigma1 (w.getD (i - 2) 0) + w.getD (i - 7) 0 +
      sha256SmallSigma0 (w.getD (i - 15) 0) + w.getD (i - 16) 0) % 4294967296
    sha256ExtendW (w ++ [nw]) k

/-- The 64 compression rounds over the paired schedule and round constants. -/
def sha256Rounds : List Nat → List (Nat × Nat) → List Nat
  | st, [] => st
  | [a, b, c, d, e, f, g, hh], (wi, ki) :: rest =>
    let t1 := (hh + sha256BigSigma1 e + sha256ChF e f g + ki + wi) % 4294967296
    let t2 := (sha256BigSigma0 a + sha256MajF a b c) % 4294967296
    sha256Rounds [(t1 + t2) % 4294967296, a, b, c, (d + t1) % 4294967296, e, f, g] rest
  | st, _ :: _ => st

/-- Split a word list (whose length is a multiple of 16) into 512-bit blocks. -/
def wordsToBlocks : List Nat → List (List Nat)
  | a1 :: a2 :: a3 :: a4 :: a5 :: a6 :: a7 :: a8 ::
      a9 :: a10 :: a11 :: a12 :: a13 :: a14 :: a15 :: a16 :: rest =>
    [a1, a2, a3, a4, a5, a6, a7, a8, a9, a10, a11, a12, a13, a14, a15, a16]
      :: wordsToBlocks rest
  | _ => []

def sha256Blocks (hs : List Nat) : List (List Nat) → List Nat
  | [] => hs
  | block :: rest =>
    let out := sha256Rounds hs ((sha256ExtendW block 48).zip sha256K)
    let hs' := (hs.zip out).map (fun p => (p.1 + p.2) % 4294967296)
    sha256Blocks hs' rest

/-- SHA-256 digest as 32 bytes. -/
def sha256Digest (msg : List Nat) : List Nat :=
  let hs := sha256Blocks sha256InitH (wordsToBlocks (bytesToWords (sha256Pad msg)))
  (hs.map (fun w => [(w >>> 24) % 256, (w >>> 16) % 256, (w >>> 8) % 256, w % 256])).flatten

def hexDigitChar (n : Nat) : Char := ("0123456789abcdef".data).getD n '0'

/-- Modelled from the spec: `sha256_checksum(bytes)` of the crypto module
(`crates/device-sync/src/crypto.rs`, not among the embedded sources) returns
`sha256:` followed by 64 lowercase hex characters of the SHA-256 digest. -/
def sha256Checksum (payload : List Nat) : String :=
  "sha256:" ++ String.mk
    (((sha256Digest payload).map (fun b => [hexDigitChar (b / 16), hexDigitChar (b % 16)])).flatten)

/-! ## Device-sync client errors -/

inductive ApiRetryClass where
  | retryable | permanent | reauthRequired
  deriving DecidableEq, Repr

/-- `DeviceSyncError` with the data the engine consumes. -/
inductive DeviceSyncError where
  | http (msg : String)
  | json (msg : String)
  | api (status : Nat) (message : String)
  | invalidRequest (msg : String)
  | auth (msg : String)
  deriving DecidableEq, Repr

/-- The `Display` strings produced by the `#[error(...)]` attributes. -/
def DeviceSyncError.toMessage : DeviceSyncError → String
  | .http m => "HTTP error: " ++ m
  | .json m => "JSON error: " ++ m
  | .api s m => "API error (" ++ toString s ++ "): " ++ m
  | .invalidRequest m => "Invalid request: " ++ m
  | .auth m => "Authentication error: " ++ m

/-- `DeviceSyncError::retry_class`. -/
def DeviceSyncError.retryClass : DeviceSyncError → ApiRetryClass
  | .api status _ =>
    if status == 401 || status == 403 then .reauthRequired
    else if status == 408 || status == 409 || status == 423 || status == 425 ||
      status == 429 then .retryable
    else if 500 ≤ status && status ≤ 599 then .retryable
    else .permanent
  | .http _ => .retryable
  | .json _ => .permanent
  | .invalidRequest _ => .permanent
  | .auth _ => .reauthRequired

/-! ## Snapshot upload validation -/

structure SnapshotUploadHeaders where
  eventId : Option String
  schemaVersion : Int
  coversTables : List String
  sizeBytes : Int
  checksum : String
  metadataPayload : String
  payloadKeyVersion : Int
  deriving DecidableEq, Repr

/-- `is_valid_sha256_checksum`: literal `sha256:` prefix followed by exactly
64 ASCII hex digits. -/
def isValidSha256Checksum (checksum : String) : Bool :=
  match stripPrefixStr checksum "sha256:" with
  | none => false
  | some hex => hex.length == 64 && hex.data.all isAsciiHexdigitChar

/-- `Uuid::parse_str` acceptance: simple, hyphenated, braced or URN form. -/
def uuidParseOk (s : String) : Bool :=
  let hyphenated (cs : List Char) : Bool :=
    cs.length == 36 &&
      (List.range 36).all (fun i =>
        match cs.get? i with
        | some c =>
          if i == 8 || i == 13 || i == 18 || i == 23 then c == '-'
          else isAsciiHexdigitChar c
        | none => false)
  let cs := s.data
  if cs.length == 32 then cs.all isAsciiHexdigitChar
  else if cs.length == 36 then hyphenated cs
  else if cs.length == 38 then
    match cs with
    | c :: rest =>
      c == Char.ofNat 123 && (rest.take 36 |> hyphenated) &&
        rest.getD 36 ' ' == Char.ofNat 125
    | [] => false
  else if cs.length == 45 then
    match stripPrefixChars "urn:uuid:".data cs with
    | some rest => hyphenated rest
    | none => false
  else false

/-- The prefix of `upload_snapshot_with_cancel_flag` that runs before any
HTTP I/O: size/checksum validation, checksum normalisation, stable event-id
resolution (`generatedId` stands for the `Uuid::new_v4()` draw) and in-flight
deduplication.  An `.ok` result is exactly the state in which the function
proceeds to `upload_snapshot_with_retry`, i.e. to network I/O. -/
def uploadSnapshotPreHttp (inFlight : List String) (deviceId : String)
    (headers : SnapshotUploadHeaders) (payload : List Nat) (generatedId : String) :
    Except DeviceSyncError (SnapshotUploadHeaders × List String) :=
  if payload.length > 9223372036854775807 then
    .error (.invalidRequest "Snapshot payload is too large for size header")
  else if headers.sizeBytes != (payload.length : Int) then
    .error (.invalidRequest ("Snapshot size header mismatch: header="
      ++ toString headers.sizeBytes ++ " payload=" ++ toString (payload.length : Int)))
  else if !(isValidSha256Checksum headers.checksum) then
    .error (.invalidRequest "Invalid snapshot checksum format; expected sha256:<hex>")
  else
    let computed := sha256Checksum payload
    if !(eqIgnoreAsciiCase headers.checksum computed) then
      .error (.invalidRequest "Snapshot checksum does not match payload bytes")
    else
      let headers1 := { headers with checksum := toAsciiLowercase computed }
      match headers1.eventId with
      | some value =>
        if uuidParseOk value then
          let headers2 := { headers1 with eventId := some value }
          let dedupeKey := deviceId ++ ":" ++ value
          if inFlight.contains dedupeKey then
            .error (.invalidRequest "Snapshot upload already in progress for this snapshot event")
          else .ok (headers2, inFlight ++ [dedupeKey])
        else .error (.invalidRequest "Invalid snapshot event ID")
      | none =>
        let headers2 := { headers1 with eventId := some generatedId }
        let dedupeKey := deviceId ++ ":" ++ generatedId
        if inFlight.contains dedupeKey then
          .error (.invalidRequest "Snapshot upload already in progress for this snapshot event")
        else .ok (headers2, inFlight ++ [dedupeKey])

/-! ## Strict snapshot-id validation and the cursor fallback -/

/-- Rust's `str::trim` (ASCII/Unicode whitespace at both ends). -/
def rustTrim (s : String) : String :=
  String.mk (((s.data.dropWhile Char.isWhitespace).reverse.dropWhile Char.isWhitespace).reverse)

def isVersionChar (b : Char) : Bool := '1' ≤ b && b ≤ '8'

def isVariantChar (b : Char) : Bool :=
  b == '8' || b == '9' || b == 'a' || b == 'b' || b == 'A' || b == 'B'

/-- The per-position check of the strict validator's loop.  The source walks
bytes; every non-ASCII byte fails each of the byte classes used here, so the
character-level walk gives the same verdict. -/
def strictUuidCharOk (bytes : List Char) (idx : Nat) : Bool :=
  match bytes.get? idx with
  | none => false
  | some b =>
    if idx == 8 || idx == 13 || idx == 18 || idx == 23 then b == '-'
    else if idx == 14 then isVersionChar b
    else if idx == 19 then isVariantChar b
    else isAsciiHexdigitChar b

/-- `DeviceSyncClient::is_backend_strict_uuid`. -/
def isBackendStrictUuid (input : String) : Bool :=
  let value := rustTrim input
  if eqIgnoreAsciiCase value "00000000-0000-0000-0000-000000000000" ||
      eqIgnoreAsciiCase value "ffffffff-ffff-ffff-ffff-ffffffffffff" then true
  else if value.data.length != 36 then false
  else (List.range 36).all (strictUuidCharOk value.data)

def listStartsWith : List Char → List Char → Bool
  | _, [] => true
  | [], _ :: _ => false
  | c :: cs, p :: ps => c == p && listStartsWith cs ps

/-- Rust's `str::contains` with a string pattern. -/
def listContainsSeq : List Char → List Char → Bool
  | [], p => p.isEmpty
  | c :: cs, p => listStartsWith (c :: cs) p || listContainsSeq cs p

def strContainsSubstr (s pat : String) : Bool := listContainsSeq s.data pat.data

/-- `DeviceSyncError::is_snapshot_id_validation_error`. -/
def DeviceSyncError.isSnapshotIdValidationError : DeviceSyncError → Bool
  | .api status message =>
    status == 400 && strContainsSubstr message "snapshotId" &&
      (strContainsSubstr message "Invalid UUID" || strContainsSubstr message "invalid_format")
  | _ => false

structure SnapshotLatestResponse where
  snapshotId : String
  schemaVersion : Int
  coversTables : List String
  oplogSeq : Int
  sizeBytes : Int
  checksum : String
  createdAt : String
  deriving DecidableEq, Repr

structure CursorLatestSnapshot where
  snapshotId : String
  schemaVersion : Int
  oplogSeq : Int
  deriving DecidableEq, Repr

structure CursorResponse where
  cursor : Int
  gcWatermark : Option Int
  latestSnapshot : Option CursorLatestSnapshot
  deriving DecidableEq, Repr

/-- Responses the relay gives to the two calls the fallback can make. -/
structure FallbackEnv where
  latestResult : Except DeviceSyncError SnapshotLatestResponse
  cursorResult : Except DeviceSyncError CursorResponse

/-- The snapshot metadata synthesised from the cursor pointer. -/
def snapshotFromCursorPointer (value : CursorLatestSnapshot) : SnapshotLatestResponse :=
  ⟨value.snapshotId, value.schemaVersion, [], value.oplogSeq, 0, "", ""⟩

/-- `get_latest_snapshot_with_cursor_fallback`; the boolean records whether
the cursor endpoint was consulted. -/
def getLatestSnapshotWithCursorFallback (env : FallbackEnv) :
    Bool × Except DeviceSyncError (Option SnapshotLatestResponse) :=
  match env.latestResult with
  | .ok snapshot =>
    if isBackendStrictUuid snapshot.snapshotId then (false, .ok (some snapshot))
    else
      match env.cursorResult with
      | .error e => (true, .error e)
      | .ok cursor => (true, .ok (cursor.latestSnapshot.map snapshotFromCursorPointer))
  | .error err =>
    if err.isSnapshotIdValidationError then
      match env.cursorResult with
      | .error e => (true, .error e)
      | .ok cursor => (true, .ok (cursor.latestSnapshot.map snapshotFromCursorPointer))
    else (false, .error err)

/-- The claim's statement for C4: every upload call with an empty payload
fails with `InvalidRequest` before any HTTP I/O. -/
def uploadRejectsEmptyClaim : Prop :=
  ∀ (inFlight : List String) (deviceId : String) (headers : SnapshotUploadHeaders)
    (payload : List Nat) (generatedId : String), payload = [] →
    ∃ msg, uploadSnapshotPreHttp inFlight deviceId headers payload generatedId
      = .error (.invalidRequest msg)

/-- Consistent upload headers for the empty payload (size 0, matching
lowercase checksum, no caller-provided event id). -/
def emptyUploadHeaders : SnapshotUploadHeaders :=
  ⟨none, 1, ["accounts"], 0,
   "sha256:e3b0c44298fc1c149afbf4c8996fb92427ae41e4649b934ca495991b7852b855", "meta", 1⟩

/-! ## Sync cycle engine

`run_sync_cycle` from `apps/tauri/src/commands/device_sync/engine.rs`, as a
deterministic function of an environment of collaborator responses.  The
keyring identity, the enroll service, the relay client and the crypto module
(the last two not among the embedded sources) enter through `CycleEnv`; the
clock is a snapshot (`now`, `retryAtAfter`, `durationMs`).  The pull loop
carries fuel: `none` means the scripted run did not terminate within it. -/

/-- `SyncIdentity` from the keyring (`sync_identity` JSON). -/
structure SyncIdentity where
  deviceId : Option String
  rootKey : Option String
  keyVersion : Option Int
  deriving DecidableEq, Repr

inductive SyncOutboxStatus where
  | pending | sent | dead
  deriving DecidableEq, Repr

/-- A `sync_outbox` row, with the enum columns already decoded. -/
structure OutboxRow where
  eventId : String
  entity : SyncEntity
  entityId : String
  op : SyncOperation
  clientTimestamp : String
  payload : String
  payloadKeyVersion : Int
  sent : Bool
  status : SyncOutboxStatus
  retryCount : Int
  nextRetryAt : Option String
  lastError : Option String
  lastErrorCode : Option String
  createdAt : String
  deriving DecidableEq, Repr

structure EngineStateRow where
  lockVersion : Int
  lastPushAt : Option String
  lastPullAt : Option String
  lastError : Option String
  consecutiveFailures : Int
  nextRetryAt : Option String
  lastCycleStatus : Option String
  lastCycleDurationMs : Option Int
  deriving DecidableEq, Repr

structure DeviceConfigRow where
  deviceId : String
  keyVersion : Option Int
  trustState : String
  lastBootstrapAt : Option String
  deriving DecidableEq, Repr

/-- The local database as the cycle engine sees it. -/
structure CycleDb where
  sync : SyncDb
  cursorRow : Option SyncCursorRow
  outbox : List OutboxRow
  engineState : Option EngineStateRow
  deviceConfig : List DeviceConfigRow

def getCursorDb (db : CycleDb) : Int := getCursor db.cursorRow

def setCursorDb (db : CycleDb) (v : Int) (now : String) : CycleDb :=
  { db with cursorRow := setCursor db.cursorRow v now }

/-- `acquire_cycle_lock`: bump (or initialise) `lock_version`. -/
def acquireCycleLock (db : CycleDb) : Int × CycleDb :=
  let next := ((db.engineState.map (fun s => s.lockVersion)).getD 0) + 1
  let state' :=
    match db.engineState with
    | some s => { s with lockVersion := next }
    | none => ⟨next, none, none, none, 0, none, none, none⟩
  (next, { db with engineState := some state' })

/-- `verify_cycle_lock`. -/
def verifyCycleLock (db : CycleDb) (expected : Int) : Bool :=
  (db.engineState.map (fun s => s.lockVersion == expected)).getD false

/-- `mark_engine_error`. -/
def markEngineError (db : CycleDb) (msg : String) : CycleDb :=
  let state' :=
    match db.engineState with
    | some s =>
      { s with lastError := some msg, consecutiveFailures := s.consecutiveFailures + 1, lastCycleStatus := some "error" }
    | none => ⟨0, none, none, some msg, 1, none, some "error", none⟩
  { db with engineState := some state' }

/-- `mark_cycle_outcome`. -/
def markCycleOutcome (db : CycleDb) (status : String) (durationMs : Int)
    (retryAt : Option String) : CycleDb :=
  let state' :=
    match db.engineState with
    | some s =>
      { s with lastCycleStatus := some status, lastCycleDurationMs := some durationMs, nextRetryAt := retryAt }
    | none => ⟨0, none, none, none, 0, retryAt, some status, some durationMs⟩
  { db with engineState := some state' }

/-- `mark_push_completed`. -/
def markPushCompleted (db : CycleDb) (now : String) : CycleDb :=
  let state' :=
    match db.engineState with
    | some s =>
      { s with lastPushAt := some now, lastError := none, consecutiveFailures := 0, nextRetryAt := none, lastCycleStatus := some "ok" }
    | none => ⟨0, some now, none, none, 0, none, some "ok", none⟩
  { db with engineState := some state' }

/-- `mark_pull_completed`. -/
def markPullCompleted (db : CycleDb) (now : String) : CycleDb :=
  let state' :=
    match db.engineState with
    | some s =>
      { s with lastPullAt := some now, lastError := none, consecutiveFailures := 0, nextRetryAt := none, lastCycleStatus := some "ok" }
    | none => ⟨0, none, some now, none, 0, none, some "ok", none⟩
  { db with engineState := some state' }

/-- `upsert_device_config` keyed by `device_id`. -/
def upsertDeviceConfig (rows : List DeviceConfigRow) (deviceId : String)
    (keyVersion : Option Int) (trustState : String) : List DeviceConfigRow :=
  if rows.any (fun r => r.deviceId == deviceId) then
    rows.map (fun r =>
      if r.deviceId == deviceId then { r with keyVersion := keyVersion, trustState := trustState }
      else r)
  else rows ++ [⟨deviceId, keyVersion, trustState, none⟩]

/-- `persist_device_config_from_identity` (a no-op without a device id). -/
def persistDeviceConfig (db : CycleDb) (identity : SyncIdentity) (trustState : String) : CycleDb :=
  match identity.deviceId with
  | some deviceId =>
    { db with deviceConfig := upsertDeviceConfig db.deviceConfig deviceId identity.keyVersion trustState }
  | none => db

/-- `mark_outbox_sent`. -/
def markOutboxSentRows (rows : List OutboxRow) (ids : List String) : List OutboxRow :=
  rows.map (fun r =>
    if ids.contains r.eventId then
      { r with sent := true, status := .sent, nextRetryAt := none, lastError := none, lastErrorCode := none }
    else r)

/-- `mark_outbox_dead`. -/
def markOutboxDeadRows (rows : List OutboxRow) (ids : List String)
    (err code : Option String) : List OutboxRow :=
  rows.map (fun r =>
    if ids.contains r.eventId then { r with status := .dead, lastError := err, lastErrorCode := code }
    else r)

/-- `schedule_outbox_retry`. -/
def scheduleOutboxRetryRows (rows : List OutboxRow) (ids : List String) (retryAt : String)
    (err code : Option String) : List OutboxRow :=
  rows.map (fun r =>
    if ids.contains r.eventId then
      { r with retryCount := r.retryCount + 1, nextRetryAt := some retryAt, status := .pending, lastError := err, lastErrorCode := code }
    else r)

/-- Stable insertion into a list ordered by `created_at` (byte order, as
SQLite compares TEXT). -/
def insertByCreatedAt (r : OutboxRow) : List OutboxRow → List OutboxRow
  | [] => [r]
  | x :: xs =>
    if strLtB r.createdAt x.createdAt then r :: x :: xs
    else x :: insertByCreatedAt r xs

def sortByCreatedAt (rows : List OutboxRow) : List OutboxRow :=
  rows.foldr insertByCreatedAt []

/-- `list_pending_outbox`: pending, unsent, due rows ordered by `created_at`,
limited. -/
def listPendingOutbox (now : String) (rows : List OutboxRow) (limit : Nat) : List OutboxRow :=
  (sortByCreatedAt (rows.filter (fun r =>
    r.status == .pending && r.sent == false &&
      (match r.nextRetryAt with
       | none => true
       | some t => !(strLtB now t))))).take limit

/-- `prune_applied_events_up_to_seq` on the sync sub-state. -/
def pruneAppliedEvents (db : CycleDb) (seqCutoff : Int) : CycleDb :=
  let sync' := { db.sync with appliedEvents := db.sync.appliedEvents.filter (fun r => !(r.seq ≤ seqCutoff)) }
  { db with sync := sync' }

/-- `backoff_seconds` from `crates/core/src/sync/device_sync_engine.rs`. -/
def backoffSeconds (consecutiveFailures : Int) : Int :=
  let capped := max 0 (min consecutiveFailures 8)
  2 ^ capped.toNat * 5

/-- `parse_event_operation`: the segment after the first `.`. -/
def splitOnDotAux (acc : List Char) : List Char → List (List Char)
  | [] => [acc.reverse]
  | c :: rest => if c == '.' then acc.reverse :: splitOnDotAux [] rest else splitOnDotAux (c :: acc) rest

def parseEventOperation (eventType : String) : Option SyncOperation :=
  match (splitOnDotAux [] eventType.data).get? 1 with
  | some seg =>
    if seg == "create".data then some .create
    else if seg == "update".data then some .update
    else if seg == "delete".data then some .delete
    else if seg == "request".data then some .request
    else none
  | none => none

structure PullEventWire where
  eventId : String
  seq : Int
  deviceId : String
  eventType : String
  entity : SyncEntity
  entityId : String
  clientTimestamp : String
  payload : String
  payloadKeyVersion : Int

structure PullResponse where
  events : List PullEventWire
  nextCursor : Int
  hasMore : Bool
  gcWatermark : Option Int

structure PushResponse where
  accepted : List String
  duplicate : List String
  deriving DecidableEq, Repr

/-- Environment of a cycle: collaborator responses and the clock. -/
structure CycleEnv where
  identity : Option SyncIdentity
  syncStateReady : Except String Bool
  tokenResult : Except String String
  cursorResult : Except DeviceSyncError CursorResponse
  pushResult : Except DeviceSyncError PushResponse
  pullResults : Nat → Except DeviceSyncError PullResponse
  encryptPayload : String → Int → Except String String
  decryptPayload : String → Int → Except String String
  parseJson : String → Except String Json
  now : String
  retryAtAfter : Int → String
  durationMs : Int

/-- `encrypt_sync_payload`: requires the root key, then delegates to the
modelled crypto (`derive_dek` + `encrypt`). -/
def encryptSyncPayload (env : CycleEnv) (identity : SyncIdentity) (plaintext : String)
    (payloadKeyVersion : Int) : Except String String :=
  match identity.rootKey with
  | none => .error "Sync root key is not configured"
  | some _ => env.encryptPayload plaintext (max payloadKeyVersion 1)

/-- `decrypt_sync_payload`. -/
def decryptSyncPayload (env : CycleEnv) (identity : SyncIdentity) (ciphertext : String)
    (payloadKeyVersion : Int) : Except String String :=
  match identity.rootKey with
  | none => .error "Sync root key is not configured"
  | some _ => env.decryptPayload ciphertext (max payloadKeyVersion 1)

/-- The per-event encryption of the push loop; the first failure aborts. -/
def encryptPendingEvents (env : CycleEnv) (identity : SyncIdentity) :
    List OutboxRow → Except String (List String)
  | [] => .ok []
  | e :: rest =>
    match encryptSyncPayload env identity e.payload (max e.payloadKeyVersion 1) with
    | .error err => .error err
    | .ok enc => (encryptPendingEvents env identity rest).map (fun l => enc :: l)

inductive CycleAction where
  | cursorFetch
  | listPendingRead
  | pushRequest (count : Nat)
  | pullRequest (since : Int)
  | scheduleRetryCall (ids : List String)
  deriving DecidableEq, Repr

structure SyncCycleResult where
  status : String
  lockVersion : Int
  pushedCount : Nat
  pulledCount : Nat
  cursor : Int
  needsBootstrap : Bool
  deriving DecidableEq, Repr

/-- `CycleContext::fail`: record the error and the cycle outcome, then build
the result; `needs_bootstrap` is true exactly for `stale_cursor`. -/
def cycleFail (env : CycleEnv) (db : CycleDb) (trace : List CycleAction)
    (lockVersion : Int) (localCursor : Int) (pushed pulled : Nat)
    (status msg : String) (retrySecs : Option Int) :
    CycleDb × List CycleAction × SyncCycleResult :=
  let db1 := markEngineError db msg
  let db2 := markCycleOutcome db1 status env.durationMs (retrySecs.map env.retryAtAfter)
  (db2, trace, ⟨status, lockVersion, pushed, pulled, localCursor, status == "stale_cursor"⟩)

/-- The push phase (step 6): list pending events, encrypt, post, and settle
the outbox.  `.error` carries a finished cycle (a failure return);
`.ok` carries the state, the pushed count and the trace so far. -/
def pushPhase (env : CycleEnv) (identity : SyncIdentity) (lockVersion : Int)
    (localCursor : Int) (db : CycleDb) (trace : List CycleAction) :
    Except (CycleDb × List CycleAction × SyncCycleResult) (CycleDb × Nat × List CycleAction) :=
  let pending := listPendingOutbox env.now db.outbox 500
  let trace := trace ++ [.listPendingRead]
  let maxRetryCount := pending.foldl (fun acc e => max acc e.retryCount) 0
  let pushEventIds := pending.map (fun e => e.eventId)
  match encryptPendingEvents env identity pending with
  | .error err =>
    .error (cycleFail env db trace lockVersion localCursor 0 0 "push_prepare_error"
      ("Push payload encryption failed: " ++ err) (some 15))
  | .ok _ =>
    if pending.isEmpty then .ok (db, 0, trace)
    else
      let trace := trace ++ [.pushRequest pending.length]
      match env.pushResult with
      | .ok pushResponse =>
        let sentIds := pushResponse.accepted ++ pushResponse.duplicate
        let db1 := { db with outbox := markOutboxSentRows db.outbox sentIds }
        let db2 := markPushCompleted db1 env.now
        .ok (db2, sentIds.length, trace)
      | .error err =>
        let errStr := err.toMessage
        if strContainsSubstr errStr "KEY_VERSION_MISMATCH" then
          let outbox' := markOutboxDeadRows db.outbox pushEventIds (some errStr) (some "key_version_mismatch")
          let db1 := { db with outbox := outbox' }
          .error (cycleFail env db1 trace lockVersion localCursor 0 0 "key_version_mismatch"
            "Key version mismatch — re-pairing required" none)
        else
          let backoff := backoffSeconds maxRetryCount
          match err.retryClass with
          | .reauthRequired =>
            let outbox' := scheduleOutboxRetryRows db.outbox pushEventIds (env.retryAtAfter 30) (some errStr) (some "reauth_required")
            let db1 := { db with outbox := outbox' }
            .error (cycleFail env db1 (trace ++ [.scheduleRetryCall pushEventIds]) lockVersion
              localCursor 0 0 "auth_error" "Authentication required" (some 30))
          | .retryable =>
            let outbox' := scheduleOutboxRetryRows db.outbox pushEventIds (env.retryAtAfter backoff) (some errStr) (some "retryable")
            let db1 := { db with outbox := outbox' }
            .error (cycleFail env db1 (trace ++ [.scheduleRetryCall pushEventIds]) lockVersion
              localCursor 0 0 "push_error" ("Push failed: " ++ errStr) (some backoff))
          | .permanent =>
            let outbox' := markOutboxDeadRows db.outbox pushEventIds (some errStr) (some "permanent")
            let db1 := { db with outbox := outbox' }
            .error (cycleFail env db1 trace lockVersion localCursor 0 0 "push_error"
              ("Push failed: " ++ errStr) (some backoff))

/-- Decode one pulled batch: filter own-device and snapshot control events,
map the event type, decrypt and JSON-decode each payload.  An error carries
the `(status, message, retry)` of the corresponding cycle failure. -/
def decodePulledEvents (env : CycleEnv) (identity : SyncIdentity) (deviceId : String) :
    List PullEventWire → Except (String × String × Option Int) (List BatchEvent)
  | [] => .ok []
  | re :: rest =>
    if re.deviceId == deviceId then decodePulledEvents env identity deviceId rest
    else if re.entity = SyncEntity.snapshot then decodePulledEvents env identity deviceId rest
    else
      match parseEventOperation re.eventType with
      | none =>
        .error ("replay_blocked",
          "Replay blocked: unsupported event type '" ++ re.eventType ++ "' for event "
            ++ re.eventId, some 21600)
      | some op =>
        match decryptSyncPayload env identity re.payload re.payloadKeyVersion with
        | .error err =>
          .error ("replay_error",
            "Replay decrypt failed for event " ++ re.eventId ++ ": " ++ err, some 10)
        | .ok plain =>
          match env.parseJson plain with
          | .error err =>
            .error ("replay_error",
              "Replay payload decode failed for event " ++ re.eventId ++ ": " ++ err, some 10)
          | .ok payloadJson =>
            (decodePulledEvents env identity deviceId rest).map
              (fun evs => ⟨re.entity, re.entityId, op, re.eventId, re.clientTimestamp,
                re.seq, payloadJson⟩ :: evs)

/-- The pull loop (step 8).  `.error` is a finished failing cycle; `.ok`
carries the state, the final cursor, the applied count and the trace.  The
fuel bounds the number of iterations of the scripted run. -/
def pullLoop (env : CycleEnv) (identity : SyncIdentity) (deviceId : String)
    (lockVersion : Int) (pushedCount : Nat) :
    Nat → Nat → CycleDb → Int → Nat → List CycleAction →
    Option (Except (CycleDb × List CycleAction × SyncCycleResult)
      (CycleDb × Int × Nat × List CycleAction))
  | _, 0, _, _, _, _ => none
  | iter, fuel + 1, db, localCursor, pulledCount, trace =>
    let trace := trace ++ [.pullRequest localCursor]
    match env.pullResults iter with
    | .error err =>
      if err.retryClass = .reauthRequired then
        some (.error (cycleFail env db trace lockVersion localCursor pushedCount pulledCount
          "auth_error" "Authentication required" (some 30)))
      else
        some (.error (cycleFail env db trace lockVersion localCursor pushedCount pulledCount
          "pull_error" ("Pull failed: " ++ err.toMessage) (some 10)))
    | .ok pullResponse =>
      let staleHit : Bool :=
        match pullResponse.gcWatermark with
        | some w => decide (localCursor < w)
        | none => false
      if staleHit then
        some (.error (cycleFail env db trace lockVersion localCursor pushedCount pulledCount
          "stale_cursor"
          ("Cursor " ++ toString localCursor ++ " is older than pull GC watermark") none))
      else
        match decodePulledEvents env identity deviceId pullResponse.events with
        | .error (status, msg, retry) =>
          some (.error (cycleFail env db trace lockVersion localCursor pushedCount pulledCount
            status msg retry))
        | .ok batchEvents =>
          match applyRemoteEventsLwwBatch env.now db.sync batchEvents with
          | (_, .error (.internal msg)) =>
            some (.error (cycleFail env db trace lockVersion localCursor pushedCount pulledCount
              "replay_error" ("Replay apply failed: " ++ msg) (some 10)))
          | (_, .ok (sync', appliedCount)) =>
            let pulled' := pulledCount + appliedCount
            let localCursor' := pullResponse.nextCursor
            let db1 := setCursorDb { db with sync := sync' } localCursor' env.now
            if pullResponse.hasMore then
              pullLoop env identity deviceId lockVersion pushedCount (iter + 1) fuel db1
                localCursor' pulled' trace
            else some (.ok (db1, localCursor', pulled', trace))

/-- Steps 7–10 of the cycle: lock check, pull, prune, outcome. -/
def cycleAfterPush (env : CycleEnv) (identity : SyncIdentity) (deviceId : String)
    (lockVersion : Int) (localCursor : Int) (cursorResponse : CursorResponse) (pullFuel : Nat)
    (db : CycleDb) (pushedCount : Nat) (trace : List CycleAction) :
    Option (CycleDb × List CycleAction × SyncCycleResult) :=
  if !(verifyCycleLock db lockVersion) then
    some (markCycleOutcome db "preempted" env.durationMs none, trace,
      ⟨"preempted", lockVersion, pushedCount, 0, localCursor, false⟩)
  else
    let pullDone :
        Option (Except (CycleDb × List CycleAction × SyncCycleResult)
          (CycleDb × Int × Nat × List CycleAction)) :=
      if cursorResponse.cursor > localCursor then
        match pullLoop env identity deviceId lockVersion pushedCount 0 pullFuel db localCursor
            0 trace with
        | none => none
        | some (.error final) => some (.error final)
        | some (.ok (db1, cursor', pulled', trace')) =>
          some (.ok (markPullCompleted db1 env.now, cursor', pulled', trace'))
      else some (.ok (db, localCursor, 0, trace))
    match pullDone with
    | none => none
    | some (.error final) => some final
    | some (.ok (db2, localCursor', pulledCount, trace')) =>
      let db3 :=
        if localCursor' > 20000 then pruneAppliedEvents db2 (localCursor' - 10000) else db2
      let db4 := markCycleOutcome db3 "ok" env.durationMs none
      some (db4, trace', ⟨"ok", lockVersion, pushedCount, pulledCount, localCursor', false⟩)

/-- `run_sync_cycle`: one full cycle over the environment. -/
def runSyncCycle (env : CycleEnv) (db : CycleDb) (pullFuel : Nat) :
    Option (CycleDb × List CycleAction × SyncCycleResult) :=
  let localCursor0 := getCursorDb db
  match env.identity with
  | none =>
    some (cycleFail env db [] 0 localCursor0 0 0 "config_error"
      "No sync identity configured. Please enable sync first." none)
  | some identity =>
    match identity.deviceId with
    | none => some (cycleFail env db [] 0 localCursor0 0 0 "config_error"
        "No device ID configured" none)
    | some deviceId =>
      match env.syncStateReady with
      | .error errMsg =>
        some (cycleFail env db [] 0 localCursor0 0 0 "state_error"
          ("Failed to read sync state: " ++ errMsg) (some 15))
      | .ok ready =>
        if !ready then
          let db1 := persistDeviceConfig db identity "untrusted"
          let db2 := markCycleOutcome db1 "not_ready" env.durationMs none
          some (db2, [], ⟨"not_ready", 0, 0, 0, localCursor0, false⟩)
        else
          let db1 := persistDeviceConfig db identity "trusted"
          match env.tokenResult with
          | .error err =>
            some (cycleFail env db1 [] 0 localCursor0 0 0 "auth_error"
              ("Auth error: " ++ err) (some 30))
          | .ok _token =>
            let acq := acquireCycleLock db1
            let lockVersion := acq.1
            let db2 := acq.2
            let localCursor := getCursorDb db2
            let trace := [CycleAction.cursorFetch]
            match env.cursorResult with
            | .error err =>
              some (cycleFail env db2 trace lockVersion localCursor 0 0 "cursor_error"
                ("Cursor check failed: " ++ err.toMessage) (some 10))
            | .ok cursorResponse =>
              let staleHit : Bool :=
                match cursorResponse.gcWatermark with
                | some gcWatermark => decide (localCursor < gcWatermark)
                | none => false
              if staleHit then
                some (cycleFail env db2 trace lockVersion localCursor 0 0 "stale_cursor"
                  ("Local cursor " ++ toString localCursor ++ " is older than GC watermark. "
                    ++ "Snapshot bootstrap required.") none)
              else
                match pushPhase env identity lockVersion localCursor db2 trace with
                | .error final => some final
                | .ok (db3, pushedCount, trace1) =>
                  cycleAfterPush env identity deviceId lockVersion localCursor cursorResponse
                    pullFuel db3 pushedCount trace1

/-! ## Concrete fixtures used by witness theorems -/

def fixtureSchemas : List (String × List String) :=
  [("accounts", ["id", "name", "currency"]), ("goals", ["id", "title"])]

def fixtureDbFresh : SyncDb := ⟨[], [], [], fixtureSchemas⟩

def fixturePayload : Json := .obj [("id", .str "a1"), ("name", .str "Checking")]

def fixtureTrace : List SqlEffect :=
  [.upsertRow "accounts" "id" [("id", .str "a1"), ("name", .str "Checking")]]

/-- The sync state after applying the fixture event to `fixtureDbFresh`. -/
def fixtureDb1 : SyncDb :=
  ⟨[⟨"evt-0001", 7, "account", "a1", "2026-03-01T10:00:05Z"⟩],
   [⟨"account", "a1", "evt-0001", "2026-03-01T10:00:00Z", 7⟩],
   [⟨"accounts", 1, none, some "2026-03-01T10:00:05Z"⟩],
   fixtureSchemas⟩

/-- A state whose `goals` metadata already carries a later client timestamp. -/
def fixtureLoserDb : SyncDb :=
  ⟨[], [⟨"goal", "g1", "evt-zzzz", "2026-03-01T10:00:01Z", 5⟩], [], fixtureSchemas⟩

def fixtureLoserEvent : BatchEvent :=
  ⟨.goal, "g1", .update, "evt-aaaa", "2026-03-01T10:00:00Z", 9, .obj [("id", .str "g1")]⟩

/-- A cycle-engine identity fixture. -/
def fixtureIdentity : SyncIdentity := ⟨some "dev-1", some "rk", some 1⟩

/-- A due, pending outbox row fixture for the push phase. -/
def fixtureOutboxRow : OutboxRow :=
  ⟨"evt-push-1", .goal, "g1", .update, "2026-03-01T09:59:00Z", "p1", 1, false, .pending,
   0, none, none, none, "2026-03-01T09:59:00Z"⟩

/-- A cycle database fixture with stored cursor 2 and one pending outbox row. -/
def fixtureCycleDb : CycleDb :=
  ⟨fixtureDbFresh, some ⟨1, 2, "2026-03-01T09:00:00Z"⟩, [fixtureOutboxRow], none, []⟩

/-- The same database with the cursor already at 5. -/
def fixtureCycleDb5 : CycleDb :=
  ⟨fixtureDbFresh, some ⟨1, 5, "2026-03-01T09:00:00Z"⟩, [fixtureOutboxRow], none, []⟩

/-- A cycle environment fixture: ready state, a token, a cursor response with
GC watermark 5 and relay cursor 2, and a successful push. -/
def fixtureCycleEnv : CycleEnv :=
  ⟨some fixtureIdentity, .ok true, .ok "tok",
   .ok ⟨2, some 5, none⟩,
   .ok ⟨["evt-push-1"], []⟩,
   fun _ => .error (.invalidRequest "unused"),
   fun s _ => .ok ("enc:" ++ s),
   fun s _ => .ok s,
   fun _ => .error "unused",
   "2026-03-01T10:00:00Z", fun _ => "2026-03-01T10:05:00Z", 7⟩

/-- `fixtureCycleEnv` with the relay cursor raised to 5 (no pull needed at a
local cursor of 5). -/
def fixtureCycleEnv5 : CycleEnv :=
  { fixtureCycleEnv with cursorResult := .ok ⟨5, some 5, none⟩ }

/-- `fixtureCycleEnv` without a GC watermark and with a push rejected by a
`KEY_VERSION_MISMATCH` API error. -/
def fixtureCycleEnvKvm : CycleEnv :=
  { fixtureCycleEnv with
      cursorResult := .ok ⟨0, none, none⟩,
      pushResult := .error (.api 409 "KEY_VERSION_MISMATCH: rotate") }

/-! # Theorems -/

/-! ## LWW decision function (C1) -/

example : parseRfc3339Millis "2026-01-01T00:00:00.000Z" = some 1767225600000 := by decide
example : parseRfc3339Millis "2026-01-01T01:00:00+01:00" = some 1767225600000 := by decide
example : parseRfc3339Millis "1969-12-31T23:59:59.5Z" = some (-500) := by decide
example : parseRfc3339Millis "2026-01-01T00:00" = none := by decide
example : shouldApplyLww "2026-01-01T00:00:00.000Z" "a" "2026-01-01T00:00:01.000Z" "b" = true := by decide
example : shouldApplyLww "2026-01-01T00:00:00.000Z" "0001" "2026-01-01T00:00:00.000Z" "0002" = true := by decide
example : shouldApplyLww "2026-01-01T01:00:00+01:00" "0001" "2026-01-01T00:00:00Z" "0002" = true := by decide

/-- C1 (counterexample): the LWW decision does not coincide with comparison of
RFC3339 instants at full resolution.  Here the remote timestamp is a strictly
later instant (by 800 µs), so the claim as stated demands that the remote
event be applied, but `should_apply_lww` truncates both timestamps to equal
millisecond values and the event-id tie-break (`"a" > "b"` is false) rejects
the event. -/
theorem lww_instant_resolution_counterexample :
    shouldApplyLww "2026-03-01T10:00:00.0001Z" "b" "2026-03-01T10:00:00.0009Z" "a" = false ∧
    lwwClaimInstant "2026-03-01T10:00:00.0001Z" "b" "2026-03-01T10:00:00.0009Z" "a" = true := by
  decide

/-- C1 (amended): `should_apply_lww` applies the remote event iff the remote
client timestamp is strictly later than the local one at millisecond
resolution (`chrono` parse followed by `timestamp_millis`), or the two
millisecond values are equal and the remote event id is lexicographically
greater; when a timestamp fails to parse as RFC3339 the comparison falls back
to lexical string order with the same event-id tie-break. -/
theorem lww_decides_at_millisecond_resolution (localTs localId remoteTs remoteId : String) :
    shouldApplyLww localTs localId remoteTs remoteId =
      lwwClaimMillis localTs localId remoteTs remoteId := by
  unfold shouldApplyLww lwwClaimMillis
  cases parseRfc3339Millis localTs with
  | none =>
    cases parseRfc3339Millis remoteTs with
    | none =>
      cases h1 : strLtB localTs remoteTs <;> cases h2 : localTs == remoteTs <;> simp [h1, h2]
    | some r =>
      cases h1 : strLtB localTs remoteTs <;> cases h2 : localTs == remoteTs <;> simp [h1, h2]
  | some l =>
    cases parseRfc3339Millis remoteTs with
    | none =>
      cases h1 : strLtB localTs remoteTs <;> cases h2 : localTs == remoteTs <;> simp [h1, h2]
    | some r =>
      rcases lt_trichotomy l r with h | h | h
      · simp [h, h.ne, lt_asymm h]
      · simp [h]
      · simp [h.not_lt, h.ne, h.ne']

/-! ## Replay applier: idempotency and loser frame -/

theorem insertAppliedEvent_any_self (rows : List AppliedEventRow) (row : AppliedEventRow) :
    (insertAppliedEvent rows row).any (fun r => r.eventId == row.eventId) = true := by
  unfold insertAppliedEvent
  by_cases h : rows.any (fun r => r.eventId == row.eventId) = true
  · simp [h]
  · simp [h]

theorem applyFreshEvent_ok_mem {now : String} {db : SyncDb} {entity : SyncEntity}
    {entityId : String} {op : SyncOperation} {eventId clientTs : String} {seq : Int}
    {payload : Json} {tr : List SqlEffect} {db' : SyncDb} {b : Bool}
    (h : applyFreshEvent now db entity entityId op eventId clientTs seq payload
      = (tr, .ok (db', b))) :
    db'.appliedEvents.any (fun r => r.eventId == eventId) = true := by
  unfold applyFreshEvent at h
  split at h
  · simp at h
  · simp only [Prod.mk.injEq, Except.ok.injEq] at h
    obtain ⟨-, hdb, -⟩ := h
    subst hdb
    exact insertAppliedEvent_any_self _ _

theorem applyRemoteEventLwwTx_ok_mem {now : String} {db : SyncDb} {entity : SyncEntity}
    {entityId : String} {op : SyncOperation} {eventId clientTs : String} {seq : Int}
    {payload : Json} {tr : List SqlEffect} {db' : SyncDb} {b : Bool}
    (h : applyRemoteEventLwwTx now db entity entityId op eventId clientTs seq payload
      = (tr, .ok (db', b))) :
    db'.appliedEvents.any (fun r => r.eventId == eventId) = true := by
  unfold applyRemoteEventLwwTx at h
  by_cases hmem : db.appliedEvents.any (fun r => r.eventId == eventId) = true
  · rw [if_pos hmem] at h
    simp only [Prod.mk.injEq, Except.ok.injEq] at h
    obtain ⟨-, hdb, -⟩ := h
    subst hdb
    exact hmem
  · rw [if_neg hmem] at h
    exact applyFreshEvent_ok_mem h

/-- C2: replaying the same remote event twice through the LWW applier is
idempotent.  An event whose id is already in the applied-event log returns
`false`, executes no SQL, and leaves the state unchanged; and after any
successful apply (in particular a fresh winning one, which returns `true`),
re-applying the same event returns `false` and leaves the database exactly as
it was after the first call. -/
theorem apply_remote_event_lww_idempotent
    (now now2 : String) (db : SyncDb) (entity : SyncEntity) (entityId : String)
    (op : SyncOperation) (eventId clientTs : String) (seq : Int) (payload : Json) :
    (db.appliedEvents.any (fun r => r.eventId == eventId) = true →
      applyRemoteEventLwwTx now db entity entityId op eventId clientTs seq payload
        = ([], .ok (db, false))) ∧
    ∀ tr db' applied,
      applyRemoteEventLwwTx now db entity entityId op eventId clientTs seq payload
          = (tr, .ok (db', applied)) →
      applyRemoteEventLwwTx now2 db' entity entityId op eventId clientTs seq payload
          = ([], .ok (db', false)) := by
  constructor
  · intro hmem
    unfold applyRemoteEventLwwTx
    simp only [hmem, if_true]
  · intro tr db' applied h
    have hmem := applyRemoteEventLwwTx_ok_mem h
    unfold applyRemoteEventLwwTx
    simp only [hmem, if_true]

/-- C10: a fresh event that loses the LWW comparison only appends its row to
the applied-event log — the domain tables see no SQL statement, entity
metadata and table state are untouched — the call returns `false`, and in the
batch variant such an event contributes nothing to `applied_count`: the batch
result on `e :: rest` equals the batch result on `rest` from the state whose
log has absorbed `e`. -/
theorem apply_lww_loser_only_logs
    (now : String) (db : SyncDb) (e : BatchEvent) (rest : List BatchEvent)
    (hfresh : db.appliedEvents.any (fun r => r.eventId == e.eventId) = false)
    (hlose : lwwWins db (entityToDb e.entity) e.entityId e.clientTimestamp e.eventId = false) :
    applyRemoteEventLwwTx now db e.entity e.entityId e.op e.eventId e.clientTimestamp
        e.seq e.payload
      = ([], .ok ({ db with appliedEvents :=
          db.appliedEvents ++ [⟨e.eventId, e.seq, entityToDb e.entity, e.entityId, now⟩] },
          false)) ∧
    applyRemoteEventsLwwBatch now db (e :: rest)
      = applyRemoteEventsLwwBatch now
          { db with appliedEvents :=
            db.appliedEvents ++ [⟨e.eventId, e.seq, entityToDb e.entity, e.entityId, now⟩] }
          rest := by
  have h1 : applyRemoteEventLwwTx now db e.entity e.entityId e.op e.eventId e.clientTimestamp
      e.seq e.payload
      = ([], .ok ({ db with appliedEvents :=
          db.appliedEvents ++ [⟨e.eventId, e.seq, entityToDb e.entity, e.entityId, now⟩] },
          false)) := by
    unfold applyRemoteEventLwwTx applyFreshEvent applyFreshCore insertAppliedEvent
    simp [hfresh, hlose]
  refine ⟨h1, ?_⟩
  conv_lhs => rw [applyRemoteEventsLwwBatch]
  rw [h1]
  rcases hB : applyRemoteEventsLwwBatch now
      { db with appliedEvents :=
        db.appliedEvents ++ [⟨e.eventId, e.seq, entityToDb e.entity, e.entityId, now⟩] }
      rest with ⟨trRest, res⟩
  dsimp only
  rw [hB]
  cases res with
  | error err => cases err with | internal msg => simp
  | ok p =>
    rcases p with ⟨dbEnd, n⟩
    simp

/-- C2 witness: the fixture event replayed against the state that already
contains it is refused twice, once through each part of the theorem. -/
theorem apply_remote_event_lww_idempotent_witness :
    applyRemoteEventLwwTx "2026-03-01T10:00:06Z" fixtureDb1 .account "a1" .create "evt-0001"
        "2026-03-01T10:00:00Z" 7 fixturePayload = ([], .ok (fixtureDb1, false)) ∧
    applyRemoteEventLwwTx "2026-03-01T10:00:07Z" fixtureDb1 .account "a1" .create "evt-0001"
        "2026-03-01T10:00:00Z" 7 fixturePayload = ([], .ok (fixtureDb1, false)) :=
  ⟨(apply_remote_event_lww_idempotent "2026-03-01T10:00:06Z" "2026-03-01T10:00:06Z" fixtureDb1
      .account "a1" .create "evt-0001" "2026-03-01T10:00:00Z" 7 fixturePayload).1 rfl,
   (apply_remote_event_lww_idempotent "2026-03-01T10:00:05Z" "2026-03-01T10:00:07Z" fixtureDbFresh
      .account "a1" .create "evt-0001" "2026-03-01T10:00:00Z" 7 fixturePayload).2
      fixtureTrace fixtureDb1 true rfl⟩

/-- C10 witness: a concrete LWW loser only extends the applied-event log. -/
theorem apply_lww_loser_only_logs_witness :
    applyRemoteEventLwwTx "2026-03-01T10:00:06Z" fixtureLoserDb .goal "g1" .update "evt-aaaa"
        "2026-03-01T10:00:00Z" 9 (.obj [("id", Json.str "g1")])
      = ([], .ok ({ fixtureLoserDb with appliedEvents := fixtureLoserDb.appliedEvents
          ++ [⟨"evt-aaaa", 9, "goal", "g1", "2026-03-01T10:00:06Z"⟩] }, false)) ∧
    applyRemoteEventsLwwBatch "2026-03-01T10:00:06Z" fixtureLoserDb [fixtureLoserEvent]
      = applyRemoteEventsLwwBatch "2026-03-01T10:00:06Z"
          { fixtureLoserDb with appliedEvents := fixtureLoserDb.appliedEvents
            ++ [⟨"evt-aaaa", 9, "goal", "g1", "2026-03-01T10:00:06Z"⟩] } [] :=
  apply_lww_loser_only_logs "2026-03-01T10:00:06Z" fixtureLoserDb fixtureLoserEvent [] rfl rfl

/-! ## Payload validation on replay (C8) -/

theorem validatePayloadColumns_ok {db : SyncDb} {tableName : String}
    {fields : List (String × Json)}
    (h : fields.all (fun kv => (knownColumns db tableName).contains kv.1) = true) :
    validatePayloadColumns db tableName fields = .ok () := by
  unfold validatePayloadColumns
  have hnone : fields.find? (fun kv => !((knownColumns db tableName).contains kv.1)) = none := by
    rw [List.find?_eq_none]
    intro kv hmem
    have hc := List.all_eq_true.mp h kv hmem
    simp only [Bool.not_eq_true', Bool.not_eq_false]
    simpa using hc
  rw [hnone]

theorem validatePayloadColumns_err {db : SyncDb} {tableName : String}
    {fields : List (String × Json)}
    (h : fields.all (fun kv => (knownColumns db tableName).contains kv.1) = false) :
    ∃ msg, validatePayloadColumns db tableName fields = .error (.internal msg) := by
  cases hf : fields.find? (fun kv => !((knownColumns db tableName).contains kv.1)) with
  | none =>
    exfalso
    have hall : fields.all (fun kv => (knownColumns db tableName).contains kv.1) = true := by
      rw [List.all_eq_true]
      intro kv hmem
      have := List.find?_eq_none.mp hf kv hmem
      simpa using this
    rw [hall] at h
    simp at h
  | some kv =>
    refine ⟨"Sync payload column '" ++ kv.1 ++ "' is not valid for table '"
      ++ tableName ++ "'", ?_⟩
    unfold validatePayloadColumns
    rw [hf]

theorem injectPk_all_eq {payloadObj : List (String × Json)} {pkName entityId : String}
    {cols : List String} (hpk : cols.contains pkName = true) :
    (injectPk payloadObj pkName entityId).all (fun kv => cols.contains kv.1)
      = payloadObj.all (fun kv => cols.contains kv.1) := by
  unfold injectPk
  by_cases hany : payloadObj.any (fun kv => kv.1 == pkName) = true
  · simp [hany]
  · rw [if_neg hany, List.all_append]
    simp only [List.all_cons, List.all_nil, hpk, Bool.and_true]

theorem domainStatement_ok {db : SyncDb} {tableName pkName : String} {op : SyncOperation}
    {entityId : String} {payloadObj : List (String × Json)}
    (hop : op ≠ .delete)
    (hpkm : ∀ v, lookupField payloadObj pkName = some v →
      payloadValueMatchesEntityId v entityId = true)
    (hval : validatePayloadColumns db tableName (injectPk payloadObj pkName entityId) = .ok ()) :
    domainStatement db tableName pkName op entityId (.obj payloadObj)
      = .ok [.upsertRow tableName pkName (injectPk payloadObj pkName entityId)] := by
  cases op
  case delete => exact absurd rfl hop
  all_goals
    unfold domainStatement
    cases hlk : lookupField payloadObj pkName with
    | some v => simp only [hlk, hpkm v hlk, if_true, hval]
    | none => simp only [hlk, hval]

theorem domainStatement_err {db : SyncDb} {tableName pkName : String} {op : SyncOperation}
    {entityId : String} {payloadObj : List (String × Json)}
    (hop : op ≠ .delete)
    (hpk : (knownColumns db tableName).contains pkName = true)
    (hbad : payloadValidForTable (knownColumns db tableName) pkName entityId payloadObj = false) :
    ∃ msg, domainStatement db tableName pkName op entityId (.obj payloadObj)
      = .error (.internal msg) := by
  have hcases : payloadObj.all (fun kv => (knownColumns db tableName).contains kv.1) = false ∨
      (match lookupField payloadObj pkName with
       | some v => payloadValueMatchesEntityId v entityId
       | none => true) = false := by
    by_cases hA : payloadObj.all (fun kv => (knownColumns db tableName).contains kv.1) = true
    · right
      rw [payloadValidForTable, hA, Bool.true_and] at hbad
      exact hbad
    · left
      simpa using hA
  cases op
  case delete => exact absurd rfl hop
  all_goals
    cases hlk : lookupField payloadObj pkName with
    | some v =>
      by_cases hmatch : payloadValueMatchesEntityId v entityId = true
      · have hall : payloadObj.all (fun kv => (knownColumns db tableName).contains kv.1) = false := by
          rcases hcases with h | h
          · exact h
          · simp only [hlk] at h
            exact absurd h (by simp [hmatch])
        obtain ⟨msg, hmsg⟩ := @validatePayloadColumns_err db tableName
          (injectPk payloadObj pkName entityId)
          (by rw [injectPk_all_eq hpk]; exact hall)
        refine ⟨msg, ?_⟩
        unfold domainStatement
        simp only [hlk, hmatch, if_true, hmsg]
      · refine ⟨"Sync payload PK '" ++ pkName ++ "' does not match entity_id '"
          ++ entityId ++ "'", ?_⟩
        unfold domainStatement
        simp [hlk, hmatch]
    | none =>
      have hall : payloadObj.all (fun kv => (knownColumns db tableName).contains kv.1) = false := by
        rcases hcases with h | h
        · exact h
        · simp only [hlk] at h
          simp at h
      obtain ⟨msg, hmsg⟩ := @validatePayloadColumns_err db tableName
        (injectPk payloadObj pkName entityId)
        (by rw [injectPk_all_eq hpk]; exact hall)
      refine ⟨msg, ?_⟩
      unfold domainStatement
      simp only [hlk, hmsg]

/-- C8: for a fresh remote event with `op ∈ {create, update, request}` whose
LWW check passes, the row upsert against the mapped table is executed exactly
when every key of the payload object is a column of the table and the
payload's primary-key field (if present) equals the event's entity id; on a
violation the apply fails with a validation error and executes no
row-mutating SQL statement. -/
theorem apply_lww_upsert_validated
    (now : String) (db : SyncDb) (entity : SyncEntity) (entityId : String)
    (op : SyncOperation) (eventId clientTs : String) (seq : Int)
    (payloadObj : List (String × Json)) (tableName pkName : String)
    (hfresh : db.appliedEvents.any (fun r => r.eventId == eventId) = false)
    (hwin : lwwWins db (entityToDb entity) entityId clientTs eventId = true)
    (hop : op ≠ .delete)
    (hmap : entityStorageMapping entity = some (tableName, pkName))
    (hpk : (knownColumns db tableName).contains pkName = true) :
    (payloadValidForTable (knownColumns db tableName) pkName entityId payloadObj = true →
      applyRemoteEventLwwTx now db entity entityId op eventId clientTs seq (.obj payloadObj)
        = ([.upsertRow tableName pkName (injectPk payloadObj pkName entityId)],
           .ok ({ db with
             tableState := upsertTableState now db.tableState tableName,
             entityMetadata := upsertEntityMetadata db.entityMetadata (entityToDb entity)
               entityId eventId clientTs seq,
             appliedEvents := insertAppliedEvent db.appliedEvents
               ⟨eventId, seq, entityToDb entity, entityId, now⟩ }, true))) ∧
    (payloadValidForTable (knownColumns db tableName) pkName entityId payloadObj = false →
      ∃ msg, applyRemoteEventLwwTx now db entity entityId op eventId clientTs seq (.obj payloadObj)
        = ([], .error (.internal msg))) := by
  constructor
  · intro hv
    rw [payloadValidForTable, Bool.and_eq_true] at hv
    obtain ⟨hall, hpkm⟩ := hv
    have hval : validatePayloadColumns db tableName (injectPk payloadObj pkName entityId)
        = .ok () :=
      validatePayloadColumns_ok (by rw [injectPk_all_eq hpk]; exact hall)
    have hds := domainStatement_ok hop
      (fun v hv' => by rw [hv'] at hpkm; exact hpkm) hval
    unfold applyRemoteEventLwwTx
    rw [if_neg (by simp [hfresh])]
    unfold applyFreshEvent applyFreshCore
    simp only [hwin, if_true, hmap, hds]
  · intro hv
    obtain ⟨msg, hds⟩ := domainStatement_err hop hpk hv
    refine ⟨msg, ?_⟩
    unfold applyRemoteEventLwwTx
    rw [if_neg (by simp [hfresh])]
    unfold applyFreshEvent applyFreshCore
    simp only [hwin, if_true, hmap, hds]

/-- C8 witness: a valid payload is upserted, a payload with an unknown column
is rejected with no row-mutating statement. -/
theorem apply_lww_upsert_validated_witness :
    applyRemoteEventLwwTx "2026-03-01T10:00:05Z" fixtureDbFresh .account "a1" .create "evt-0001"
        "2026-03-01T10:00:00Z" 7 (.obj [("id", Json.str "a1"), ("name", Json.str "Checking")])
      = ([.upsertRow "accounts" "id"
            (injectPk [("id", Json.str "a1"), ("name", Json.str "Checking")] "id" "a1")],
         .ok ({ fixtureDbFresh with
           tableState := upsertTableState "2026-03-01T10:00:05Z" fixtureDbFresh.tableState "accounts",
           entityMetadata := upsertEntityMetadata fixtureDbFresh.entityMetadata "account"
             "a1" "evt-0001" "2026-03-01T10:00:00Z" 7,
           appliedEvents := insertAppliedEvent fixtureDbFresh.appliedEvents
             ⟨"evt-0001", 7, "account", "a1", "2026-03-01T10:00:05Z"⟩ }, true)) ∧
    ∃ msg, applyRemoteEventLwwTx "2026-03-01T10:00:05Z" fixtureDbFresh .account "a1" .create
        "evt-0001" "2026-03-01T10:00:00Z" 7 (.obj [("hacker_column", Json.str "x")])
      = ([], .error (.internal msg)) :=
  ⟨(apply_lww_upsert_validated "2026-03-01T10:00:05Z" fixtureDbFresh .account "a1" .create
      "evt-0001" "2026-03-01T10:00:00Z" 7 [("id", Json.str "a1"), ("name", Json.str "Checking")]
      "accounts" "id" rfl rfl (by decide) rfl rfl).1 rfl,
   (apply_lww_upsert_validated "2026-03-01T10:00:05Z" fixtureDbFresh .account "a1" .create
      "evt-0001" "2026-03-01T10:00:00Z" 7 [("hacker_column", Json.str "x")]
      "accounts" "id" rfl rfl (by decide) rfl rfl).2 rfl⟩

/-! ## Cursor store (C3) -/

/-- C3 (counterexample): `set_cursor` performs an unconditional upsert, so a
call with a value smaller than the stored cursor still takes effect — at
cursor 5, `set_cursor(3)` leaves the cursor at 3, refuting the advance-only
contract. -/
theorem set_cursor_advance_only_counterexample : ¬ cursorAdvanceOnlyClaim := by
  intro h
  have h5 := h (some ⟨1, 5, "2026-03-01T10:00:00Z"⟩) 3 "2026-03-01T10:00:01Z"
  simp [getCursor, setCursor] at h5

/-- C3 (amended): the store does not enforce the advance-only restriction:
`set_cursor(v)` always takes effect, overwriting the single cursor row with
`v` even when `v` is smaller than the current cursor, so `get_cursor`
afterwards returns exactly `v`.  Monotone cursor movement is a discipline of
the call sites, not of the store. -/
theorem set_cursor_unconditional (row : Option SyncCursorRow) (v : Int) (now : String) :
    setCursor row v now = some ⟨1, v, now⟩ ∧ getCursor (setCursor row v now) = v := by
  simp [setCursor, getCursor]

/-! ## Snapshot upload validation (C4, C5) -/

example : sha256Checksum [] =
    "sha256:e3b0c44298fc1c149afbf4c8996fb92427ae41e4649b934ca495991b7852b855" := by rfl
example : sha256Checksum [97, 98, 99] =
    "sha256:ba7816bf8f01cfea414140de5dae2223b00361a396177a9cb410ff61f20015ad" := by rfl

/-- C4 (counterexample): an upload whose payload is empty but whose headers
are consistent (`size_bytes = 0`, checksum of the empty byte string) passes
every pre-send check and proceeds to HTTP I/O — there is no special rejection
of empty payloads. -/
theorem upload_empty_payload_counterexample : ¬ uploadRejectsEmptyClaim := by
  intro h
  obtain ⟨msg, hmsg⟩ := h [] "dev-1" emptyUploadHeaders []
    "11111111-2222-3333-4444-555555555555" rfl
  have hok : uploadSnapshotPreHttp [] "dev-1" emptyUploadHeaders []
      "11111111-2222-3333-4444-555555555555"
      = .ok ({ emptyUploadHeaders with
          eventId := some "11111111-2222-3333-4444-555555555555" },
        ["dev-1:11111111-2222-3333-4444-555555555555"]) := by rfl
  rw [hok] at hmsg
  exact Except.noConfusion hmsg

/-- C4 (amended): an empty payload is not specially rejected.  The call fails
with `InvalidRequest` before HTTP I/O exactly when the generic header
validation fails on the empty payload (size header not 0, malformed checksum
header, or checksum not matching the empty-payload SHA-256); with consistent
headers and no caller event id the call reaches the HTTP send. -/
theorem upload_empty_payload_not_special (deviceId genId : String)
    (headers : SnapshotUploadHeaders) :
    ((headers.sizeBytes ≠ 0 ∨ isValidSha256Checksum headers.checksum = false ∨
        eqIgnoreAsciiCase headers.checksum (sha256Checksum []) = false) →
      ∃ msg, uploadSnapshotPreHttp [] deviceId headers [] genId
        = .error (.invalidRequest msg)) ∧
    (headers.sizeBytes = 0 → isValidSha256Checksum headers.checksum = true →
      eqIgnoreAsciiCase headers.checksum (sha256Checksum []) = true →
      headers.eventId = none →
      uploadSnapshotPreHttp [] deviceId headers [] genId
        = .ok ({ headers with
            checksum := toAsciiLowercase (sha256Checksum []),
            eventId := some genId }, [deviceId ++ ":" ++ genId])) := by
  have hnot : ¬((List.length ([] : List Nat)) > 9223372036854775807) := by simp
  constructor
  · intro hbad
    by_cases hsz : headers.sizeBytes = 0
    · by_cases hfmt : isValidSha256Checksum headers.checksum = true
      · have heqf : eqIgnoreAsciiCase headers.checksum (sha256Checksum []) = false := by
          rcases hbad with h | h | h
          · exact absurd hsz h
          · rw [hfmt] at h
            exact absurd h (by simp)
          · exact h
        refine ⟨"Snapshot checksum does not match payload bytes", ?_⟩
        unfold uploadSnapshotPreHttp
        rw [if_neg hnot, if_neg (by simp [hsz]), if_neg (by simp [hfmt]),
          if_pos (by simp [heqf])]
      · refine ⟨"Invalid snapshot checksum format; expected sha256:<hex>", ?_⟩
        unfold uploadSnapshotPreHttp
        rw [if_neg hnot, if_neg (by simp [hsz]), if_pos (by simp [hfmt])]
    · refine ⟨"Snapshot size header mismatch: header=" ++ toString headers.sizeBytes
        ++ " payload=" ++ toString ((List.length ([] : List Nat)) : Int), ?_⟩
      unfold uploadSnapshotPreHttp
      rw [if_neg hnot, if_pos (by simp [hsz])]
  · intro hsz hfmt hcase hev
    unfold uploadSnapshotPreHttp
    rw [if_neg hnot, if_neg (by simp [hsz]), if_neg (by simp [hfmt]),
      if_neg (by simp [hcase])]
    simp [hev]

/-- C4 amended witness: concrete instances of both directions — a size header
of 1 over the empty payload is rejected, the consistent headers proceed. -/
theorem upload_empty_payload_not_special_witness :
    (∃ msg, uploadSnapshotPreHttp [] "dev-1" { emptyUploadHeaders with sizeBytes := 1 } []
      "11111111-2222-3333-4444-555555555555" = .error (.invalidRequest msg)) ∧
    uploadSnapshotPreHttp [] "dev-1" emptyUploadHeaders []
      "11111111-2222-3333-4444-555555555555"
      = .ok ({ emptyUploadHeaders with
          checksum := toAsciiLowercase (sha256Checksum []),
          eventId := some "11111111-2222-3333-4444-555555555555" },
        ["dev-1:11111111-2222-3333-4444-555555555555"]) :=
  ⟨(upload_empty_payload_not_special "dev-1" "11111111-2222-3333-4444-555555555555"
      { emptyUploadHeaders with sizeBytes := 1 }).1 (Or.inl (by decide)),
   (upload_empty_payload_not_special "dev-1" "11111111-2222-3333-4444-555555555555"
      emptyUploadHeaders).2 rfl rfl (by rfl) rfl⟩

/-- C5: the pre-send validation of `upload_snapshot_with_cancel_flag` — a
size-header mismatch, a malformed `sha256:<64 hex>` checksum header, or a
checksum differing (ignoring ASCII case) from the SHA-256 of the payload each
fail with `InvalidRequest` before any HTTP I/O; a matching checksum — in any
ASCII case, in particular uppercase hex — is accepted and the call proceeds
to the HTTP send with the checksum normalised to lowercase. -/
theorem upload_validation_before_send
    (inFlight : List String) (deviceId : String) (headers : SnapshotUploadHeaders)
    (payload : List Nat) (genId : String)
    (hlen : payload.length ≤ 9223372036854775807) :
    ((headers.sizeBytes ≠ (payload.length : Int) ∨
        isValidSha256Checksum headers.checksum = false ∨
        eqIgnoreAsciiCase headers.checksum (sha256Checksum payload) = false) →
      ∃ msg, uploadSnapshotPreHttp inFlight deviceId headers payload genId
        = .error (.invalidRequest msg)) ∧
    (headers.sizeBytes = (payload.length : Int) →
      isValidSha256Checksum headers.checksum = true →
      eqIgnoreAsciiCase headers.checksum (sha256Checksum payload) = true →
      headers.eventId = none → inFlight = [] →
      uploadSnapshotPreHttp inFlight deviceId headers payload genId
        = .ok ({ headers with
            checksum := toAsciiLowercase (sha256Checksum payload),
            eventId := some genId }, [deviceId ++ ":" ++ genId])) := by
  have hnot : ¬(payload.length > 9223372036854775807) := by omega
  constructor
  · intro hbad
    by_cases hsz : headers.sizeBytes = (payload.length : Int)
    · by_cases hfmt : isValidSha256Checksum headers.checksum = true
      · have heqf : eqIgnoreAsciiCase headers.checksum (sha256Checksum payload) = false := by
          rcases hbad with h | h | h
          · exact absurd hsz h
          · rw [hfmt] at h
            exact absurd h (by simp)
          · exact h
        refine ⟨"Snapshot checksum does not match payload bytes", ?_⟩
        unfold uploadSnapshotPreHttp
        rw [if_neg hnot, if_neg (by simp [hsz]), if_neg (by simp [hfmt]),
          if_pos (by simp [heqf])]
      · refine ⟨"Invalid snapshot checksum format; expected sha256:<hex>", ?_⟩
        unfold uploadSnapshotPreHttp
        rw [if_neg hnot, if_neg (by simp [hsz]), if_pos (by simp [hfmt])]
    · refine ⟨"Snapshot size header mismatch: header=" ++ toString headers.sizeBytes
        ++ " payload=" ++ toString ((payload.length : Nat) : Int), ?_⟩
      unfold uploadSnapshotPreHttp
      rw [if_neg hnot, if_pos (by simp [hsz])]
  · intro hsz hfmt hcase hev hifl
    unfold uploadSnapshotPreHttp
    rw [if_neg hnot, if_neg (by simp [hsz]), if_neg (by simp [hfmt]),
      if_neg (by simp [hcase])]
    simp [hev, hifl]

/-- C5 witness: the `abc` payload with its checksum given entirely in
uppercase hex is accepted; a wrong size header is rejected. -/
theorem upload_validation_before_send_witness :
    uploadSnapshotPreHttp [] "dev-1"
      ⟨none, 1, ["accounts"], 3,
        "sha256:BA7816BF8F01CFEA414140DE5DAE2223B00361A396177A9CB410FF61F20015AD", "meta", 1⟩
      [97, 98, 99] "11111111-2222-3333-4444-555555555555"
      = .ok (⟨some "11111111-2222-3333-4444-555555555555", 1, ["accounts"], 3,
          toAsciiLowercase (sha256Checksum [97, 98, 99]), "meta", 1⟩,
        ["dev-1:11111111-2222-3333-4444-555555555555"]) ∧
    ∃ msg, uploadSnapshotPreHttp [] "dev-1"
      ⟨none, 1, ["accounts"], 2,
        "sha256:BA7816BF8F01CFEA414140DE5DAE2223B00361A396177A9CB410FF61F20015AD", "meta", 1⟩
      [97, 98, 99] "11111111-2222-3333-4444-555555555555"
      = .error (.invalidRequest msg) :=
  ⟨(upload_validation_before_send [] "dev-1"
      ⟨none, 1, ["accounts"], 3,
        "sha256:BA7816BF8F01CFEA414140DE5DAE2223B00361A396177A9CB410FF61F20015AD", "meta", 1⟩
      [97, 98, 99] "11111111-2222-3333-4444-555555555555" (by decide)).2
      rfl rfl (by rfl) rfl rfl,
   (upload_validation_before_send [] "dev-1"
      ⟨none, 1, ["accounts"], 2,
        "sha256:BA7816BF8F01CFEA414140DE5DAE2223B00361A396177A9CB410FF61F20015AD", "meta", 1⟩
      [97, 98, 99] "11111111-2222-3333-4444-555555555555" (by decide)).1
      (Or.inl (by decide))⟩

/-! ## Strict snapshot-id validator and cursor fallback (C9) -/

/-- C9: the strict validator special-cases the all-zero and all-`f` UUIDs,
accepted case-insensitively, although `'0'`/`'f'`/`'F'` fail the version and
variant character classes the validator enforces at positions 14 and 19 of
every other 36-character input; and whenever the validator accepts the
relay's `snapshot_id`, `get_latest_snapshot_with_cursor_fallback` returns the
relay's snapshot metadata unchanged without consulting the cursor
endpoint. -/
theorem strict_uuid_special_cases_and_fallback :
    (isBackendStrictUuid "00000000-0000-0000-0000-000000000000" = true ∧
     isBackendStrictUuid "ffffffff-ffff-ffff-ffff-ffffffffffff" = true ∧
     isBackendStrictUuid "FFFFFFFF-FFFF-FFFF-FFFF-FFFFFFFFFFFF" = true ∧
     isVersionChar '0' = false ∧ isVersionChar 'f' = false ∧ isVersionChar 'F' = false ∧
     isVariantChar '0' = false ∧ isVariantChar 'f' = false ∧ isVariantChar 'F' = false) ∧
    (∀ (s : String) (c : Char),
      rustTrim s = s →
      (eqIgnoreAsciiCase s "00000000-0000-0000-0000-000000000000" ||
        eqIgnoreAsciiCase s "ffffffff-ffff-ffff-ffff-ffffffffffff") = false →
      ((s.data.get? 14 = some c ∧ isVersionChar c = false) ∨
        (s.data.get? 19 = some c ∧ isVariantChar c = false)) →
      isBackendStrictUuid s = false) ∧
    (∀ (env : FallbackEnv) (snap : SnapshotLatestResponse),
      env.latestResult = .ok snap →
      isBackendStrictUuid snap.snapshotId = true →
      getLatestSnapshotWithCursorFallback env = (false, .ok (some snap))) := by
  refine ⟨by decide, ?_, ?_⟩
  · intro s c htrim hsp hbad
    simp only [isBackendStrictUuid]
    rw [htrim, hsp]
    simp only [Bool.false_eq_true, if_false]
    by_cases hlen : s.data.length = 36
    · rw [if_neg (by simpa using hlen)]
      cases hall : (List.range 36).all (strictUuidCharOk s.data) with
      | false => rfl
      | true =>
        exfalso
        rcases hbad with ⟨hget, hver⟩ | ⟨hget, hvar⟩
        · have h14 := List.all_eq_true.mp hall 14 (by decide)
          unfold strictUuidCharOk at h14
          rw [hget] at h14
          simp at h14
          exact absurd h14 (by simp [hver])
        · have h19 := List.all_eq_true.mp hall 19 (by decide)
          unfold strictUuidCharOk at h19
          rw [hget] at h19
          simp at h19
          exact absurd h19 (by simp [hvar])
    · rw [if_pos (by simpa using hlen)]
  · intro env snap hok hstrict
    unfold getLatestSnapshotWithCursorFallback
    rw [hok]
    simp [hstrict]

/-- C9 witness: a 36-character id with version digit `0` is refused by the
generic path, yet the all-zero UUID makes the fallback hand back the relay
metadata untouched. -/
theorem strict_uuid_special_cases_and_fallback_witness :
    isBackendStrictUuid "01234567-89ab-0def-8123-456789abcdef" = false ∧
    getLatestSnapshotWithCursorFallback
      ⟨.ok ⟨"00000000-0000-0000-0000-000000000000", 1, ["accounts"], 42, 10, "sha256:aa", "t"⟩,
       .ok ⟨0, none, none⟩⟩
      = (false, .ok (some ⟨"00000000-0000-0000-0000-000000000000", 1, ["accounts"], 42, 10,
          "sha256:aa", "t"⟩)) :=
  ⟨strict_uuid_special_cases_and_fallback.2.1 "01234567-89ab-0def-8123-456789abcdef" '0'
      rfl rfl (Or.inl ⟨rfl, rfl⟩),
   strict_uuid_special_cases_and_fallback.2.2
      ⟨.ok ⟨"00000000-0000-0000-0000-000000000000", 1, ["accounts"], 42, 10, "sha256:aa", "t"⟩,
       .ok ⟨0, none, none⟩⟩
      ⟨"00000000-0000-0000-0000-000000000000", 1, ["accounts"], 42, 10, "sha256:aa", "t"⟩
      rfl rfl⟩

/-! ## Cycle engine: stale cursor and key-version mismatch (C6, C7) -/

theorem getCursorDb_persistDeviceConfig (db : CycleDb) (identity : SyncIdentity) (t : String) :
    getCursorDb (persistDeviceConfig db identity t) = getCursorDb db := by
  unfold persistDeviceConfig
  cases identity.deviceId <;> rfl

theorem getCursorDb_acquireCycleLock (db : CycleDb) :
    getCursorDb (acquireCycleLock db).2 = getCursorDb db := rfl

theorem outbox_persistDeviceConfig (db : CycleDb) (identity : SyncIdentity) (t : String) :
    (persistDeviceConfig db identity t).outbox = db.outbox := by
  unfold persistDeviceConfig
  cases identity.deviceId <;> rfl

theorem outbox_acquireCycleLock (db : CycleDb) :
    (acquireCycleLock db).2.outbox = db.outbox := rfl

theorem pushPhase_error_no_stale {env : CycleEnv} {identity : SyncIdentity} {lockV : Int}
    {lc : Int} {db : CycleDb} {trace : List CycleAction}
    {final : CycleDb × List CycleAction × SyncCycleResult}
    (h : pushPhase env identity lockV lc db trace = .error final) :
    final.2.2.status ≠ "stale_cursor" ∧ final.2.2.needsBootstrap = false ∧
      CycleAction.listPendingRead ∈ final.2.1 := by
  unfold pushPhase at h
  dsimp only at h
  rcases hEnc : encryptPendingEvents env identity (listPendingOutbox env.now db.outbox 500)
    with err | encs
  · simp only [hEnc, Except.error.injEq] at h
    subst h
    exact ⟨by simp [cycleFail], by simp [cycleFail], by simp [cycleFail]⟩
  · simp only [hEnc] at h
    cases hemp : (listPendingOutbox env.now db.outbox 500).isEmpty with
    | true =>
      rw [if_pos hemp] at h
      simp at h
    | false =>
      rw [if_neg (by simp [hemp])] at h
      cases hPush : env.pushResult with
      | ok pr =>
        simp only [hPush] at h
        simp at h
      | error err =>
        simp only [hPush] at h
        by_cases hkvm : strContainsSubstr (DeviceSyncError.toMessage err)
            "KEY_VERSION_MISMATCH" = true
        · rw [if_pos hkvm] at h
          simp only [Except.error.injEq] at h
          subst h
          exact ⟨by simp [cycleFail], by simp [cycleFail], by simp [cycleFail]⟩
        · rw [if_neg hkvm] at h
          cases hClass : DeviceSyncError.retryClass err with
          | reauthRequired =>
            simp only [hClass, Except.error.injEq] at h
            subst h
            exact ⟨by simp [cycleFail], by simp [cycleFail], by simp [cycleFail]⟩
          | retryable =>
            simp only [hClass, Except.error.injEq] at h
            subst h
            exact ⟨by simp [cycleFail], by simp [cycleFail], by simp [cycleFail]⟩
          | permanent =>
            simp only [hClass, Except.error.injEq] at h
            subst h
            exact ⟨by simp [cycleFail], by simp [cycleFail], by simp [cycleFail]⟩

theorem pushPhase_ok_mem {env : CycleEnv} {identity : SyncIdentity} {lockV : Int}
    {lc : Int} {db : CycleDb} {trace : List CycleAction} {db' : CycleDb} {n : Nat}
    {trace' : List CycleAction}
    (h : pushPhase env identity lockV lc db trace = .ok (db', n, trace')) :
    CycleAction.listPendingRead ∈ trace' := by
  unfold pushPhase at h
  dsimp only at h
  rcases hEnc : encryptPendingEvents env identity (listPendingOutbox env.now db.outbox 500)
    with err | encs
  · simp only [hEnc] at h
    simp at h
  · simp only [hEnc] at h
    cases hemp : (listPendingOutbox env.now db.outbox 500).isEmpty with
    | true =>
      rw [if_pos hemp] at h
      simp only [Except.ok.injEq, Prod.mk.injEq] at h
      obtain ⟨-, -, htr⟩ := h
      subst htr
      simp
    | false =>
      rw [if_neg (by simp [hemp])] at h
      cases hPush : env.pushResult with
      | ok pr =>
        simp only [hPush, Except.ok.injEq, Prod.mk.injEq] at h
        obtain ⟨-, -, htr⟩ := h
        subst htr
        simp
      | error err =>
        simp only [hPush] at h
        by_cases hkvm : strContainsSubstr (DeviceSyncError.toMessage err)
            "KEY_VERSION_MISMATCH" = true
        · rw [if_pos hkvm] at h
          simp at h
        · rw [if_neg hkvm] at h
          cases hClass : DeviceSyncError.retryClass err with
          | reauthRequired => simp only [hClass] at h; simp at h
          | retryable => simp only [hClass] at h; simp at h
          | permanent => simp only [hClass] at h; simp at h

theorem cycleAfterPush_skip_pull (env : CycleEnv) (identity : SyncIdentity) (deviceId : String)
    (lockV : Int) (lc : Int) (cursorResponse : CursorResponse) (fuel : Nat) (db : CycleDb)
    (pushed : Nat) (trace : List CycleAction)
    (hc : ¬(cursorResponse.cursor > lc)) :
    ∃ dbF result,
      cycleAfterPush env identity deviceId lockV lc cursorResponse fuel db pushed trace
        = some (dbF, trace, result) ∧
      (result.status = "preempted" ∨ result.status = "ok") ∧
      result.needsBootstrap = false := by
  unfold cycleAfterPush
  by_cases hv : verifyCycleLock db lockV = true
  · rw [if_neg (by simp [hv])]
    rw [if_neg hc]
    exact ⟨_, _, rfl, Or.inr rfl, rfl⟩
  · rw [if_pos (by simp [Bool.not_eq_true] at hv ⊢; exact hv)]
    exact ⟨_, _, rfl, Or.inl rfl, rfl⟩

/-- C6: when the cursor response carries a `gc_watermark`, the cycle returns
`stale_cursor` with `needs_bootstrap = true` exactly when the local cursor is
strictly below the watermark; a local cursor equal to (or above) the
watermark does not trigger it and the cycle proceeds into the push phase
(reads the pending outbox) and finishes with a status other than
`stale_cursor`.  The non-trigger direction is scoped to cycles whose pull
phase is not entered (the relay cursor is not ahead), which isolates the
step-5 decision from the separate per-pull-batch watermark check. -/
theorem cycle_stale_cursor_iff_behind_watermark
    (env : CycleEnv) (db : CycleDb) (pullFuel : Nat) (identity : SyncIdentity)
    (deviceId token : String) (cursorResponse : CursorResponse) (gcWatermark : Int)
    (hid : env.identity = some identity)
    (hdev : identity.deviceId = some deviceId)
    (hready : env.syncStateReady = .ok true)
    (htok : env.tokenResult = .ok token)
    (hcur : env.cursorResult = .ok cursorResponse)
    (hwm : cursorResponse.gcWatermark = some gcWatermark) :
    (getCursorDb db < gcWatermark →
      ∃ dbF lockV,
        runSyncCycle env db pullFuel = some (dbF, [CycleAction.cursorFetch],
          ⟨"stale_cursor", lockV, 0, 0, getCursorDb db, true⟩)) ∧
    (gcWatermark ≤ getCursorDb db → cursorResponse.cursor ≤ getCursorDb db →
      ∃ dbF trace result,
        runSyncCycle env db pullFuel = some (dbF, trace, result) ∧
        result.status ≠ "stale_cursor" ∧ result.needsBootstrap = false ∧
        CycleAction.listPendingRead ∈ trace) := by
  have hcget : getCursorDb (acquireCycleLock (persistDeviceConfig db identity "trusted")).2
      = getCursorDb db := by
    rw [getCursorDb_acquireCycleLock, getCursorDb_persistDeviceConfig]
  constructor
  · intro hlt
    have hstale : decide (getCursorDb db < gcWatermark) = true := by simp [hlt]
    refine ⟨(cycleFail env (acquireCycleLock (persistDeviceConfig db identity "trusted")).2
        [CycleAction.cursorFetch] (acquireCycleLock (persistDeviceConfig db identity "trusted")).1
        (getCursorDb db) 0 0 "stale_cursor"
        ("Local cursor " ++ toString (getCursorDb db) ++ " is older than GC watermark. "
          ++ "Snapshot bootstrap required.") none).1,
      (acquireCycleLock (persistDeviceConfig db identity "trusted")).1, ?_⟩
    simp only [runSyncCycle, hid, hdev, hready, htok, hcur, hwm, hcget]
    simp only [hstale]
    simp [cycleFail]
  · intro hge hnopull
    simp only [runSyncCycle, hid, hdev, hready, htok, hcur, hwm, hcget]
    have hstale : decide (getCursorDb db < gcWatermark) = false := by
      simp [not_lt.mpr hge]
    simp only [hstale]
    rw [if_neg (by simp), if_neg (by simp)]
    cases hp : pushPhase env identity
        (acquireCycleLock (persistDeviceConfig db identity "trusted")).1 (getCursorDb db)
        (acquireCycleLock (persistDeviceConfig db identity "trusted")).2
        [CycleAction.cursorFetch] with
    | error final =>
      obtain ⟨hne, hnb, hmem⟩ := pushPhase_error_no_stale hp
      exact ⟨final.1, final.2.1, final.2.2, rfl, hne, hnb, hmem⟩
    | ok triple =>
      obtain ⟨db3, n, trace1⟩ := triple
      have hmem := pushPhase_ok_mem hp
      obtain ⟨dbF, result, heq, hst, hnb⟩ := cycleAfterPush_skip_pull env identity deviceId
        (acquireCycleLock (persistDeviceConfig db identity "trusted")).1 (getCursorDb db)
        cursorResponse pullFuel db3 n trace1 (not_lt.mpr hnopull)
      refine ⟨dbF, trace1, result, heq, ?_, hnb, hmem⟩
      rcases hst with h | h <;> simp [h]

theorem cycle_stale_cursor_iff_behind_watermark_witness :
    (∃ dbF lockV, runSyncCycle fixtureCycleEnv fixtureCycleDb 1 = some (dbF,
      [CycleAction.cursorFetch],
      ⟨"stale_cursor", lockV, 0, 0, getCursorDb fixtureCycleDb, true⟩)) ∧
    (∃ dbF trace result,
      runSyncCycle fixtureCycleEnv5 fixtureCycleDb5 1 = some (dbF, trace, result) ∧
      result.status ≠ "stale_cursor" ∧ result.needsBootstrap = false ∧
      CycleAction.listPendingRead ∈ trace) :=
  ⟨(cycle_stale_cursor_iff_behind_watermark fixtureCycleEnv fixtureCycleDb 1 fixtureIdentity
      "dev-1" "tok" ⟨2, some 5, none⟩ 5 rfl rfl rfl rfl rfl rfl).1 (by decide),
   (cycle_stale_cursor_iff_behind_watermark fixtureCycleEnv5 fixtureCycleDb5 1 fixtureIdentity
      "dev-1" "tok" ⟨5, some 5, none⟩ 5 rfl rfl rfl rfl rfl rfl).2 (by decide) (by decide)⟩

theorem markOutboxDeadRows_mem {rows : List OutboxRow} {ids : List String}
    {err code : Option String} {r : OutboxRow}
    (h : r ∈ markOutboxDeadRows rows ids err code)
    (hc : ids.contains r.eventId = true) :
    r.status = .dead ∧ r.lastErrorCode = code := by
  unfold markOutboxDeadRows at h
  obtain ⟨x, hx, hmap⟩ := List.mem_map.mp h
  by_cases hcx : ids.contains x.eventId = true
  · rw [if_pos hcx] at hmap
    subst hmap
    exact ⟨rfl, rfl⟩
  · rw [if_neg hcx] at hmap
    subst hmap
    exact absurd hc hcx

theorem pushPhase_kvm {env : CycleEnv} {identity : SyncIdentity} (lockV lc : Int)
    (db : CycleDb) (trace : List CycleAction) {encs : List String} {err : DeviceSyncError}
    (hpendne : (listPendingOutbox env.now db.outbox 500).isEmpty = false)
    (henc : encryptPendingEvents env identity (listPendingOutbox env.now db.outbox 500)
      = .ok encs)
    (hpush : env.pushResult = .error err)
    (hkvm : strContainsSubstr err.toMessage "KEY_VERSION_MISMATCH" = true) :
    pushPhase env identity lockV lc db trace = .error (cycleFail env
      { db with
          outbox := markOutboxDeadRows db.outbox
            ((listPendingOutbox env.now db.outbox 500).map (fun e => e.eventId))
            (some err.toMessage) (some "key_version_mismatch") }
      ((trace ++ [.listPendingRead])
        ++ [.pushRequest (listPendingOutbox env.now db.outbox 500).length])
      lockV lc 0 0 "key_version_mismatch"
      "Key version mismatch — re-pairing required" none) := by
  unfold pushPhase
  dsimp only
  simp only [henc]
  rw [if_neg (by simp [hpendne])]
  simp only [hpush]
  rw [if_pos hkvm]

/-- C7: when the push request fails with an error whose message contains
`KEY_VERSION_MISMATCH`, the cycle finishes with status `key_version_mismatch`,
no retry is scheduled (`next_retry_at` cleared, no retry-scheduling call in
the trace), and the pushed outbox rows are marked dead with
`last_error_code = "key_version_mismatch"`.  Scoped to a cursor response
without a GC watermark so the stale-cursor check does not preempt the push. -/
theorem cycle_key_version_mismatch_dead
    (env : CycleEnv) (db : CycleDb) (pullFuel : Nat) (identity : SyncIdentity)
    (deviceId token : String) (cursorResponse : CursorResponse)
    (encs : List String) (err : DeviceSyncError)
    (hid : env.identity = some identity)
    (hdev : identity.deviceId = some deviceId)
    (hready : env.syncStateReady = .ok true)
    (htok : env.tokenResult = .ok token)
    (hcur : env.cursorResult = .ok cursorResponse)
    (hwm : cursorResponse.gcWatermark = none)
    (hpend : (listPendingOutbox env.now db.outbox 500).isEmpty = false)
    (henc : encryptPendingEvents env identity (listPendingOutbox env.now db.outbox 500)
      = .ok encs)
    (hpush : env.pushResult = .error err)
    (hkvm : strContainsSubstr err.toMessage "KEY_VERSION_MISMATCH" = true) :
    ∃ dbF lockV,
      runSyncCycle env db pullFuel = some (dbF,
        [CycleAction.cursorFetch, CycleAction.listPendingRead,
          CycleAction.pushRequest (listPendingOutbox env.now db.outbox 500).length],
        ⟨"key_version_mismatch", lockV, 0, 0, getCursorDb db, false⟩) ∧
      dbF.outbox = markOutboxDeadRows db.outbox
        ((listPendingOutbox env.now db.outbox 500).map (fun e => e.eventId))
        (some err.toMessage) (some "key_version_mismatch") ∧
      (∀ r ∈ dbF.outbox,
        ((listPendingOutbox env.now db.outbox 500).map (fun e => e.eventId)).contains
            r.eventId = true →
          r.status = .dead ∧ r.lastErrorCode = some "key_version_mismatch") ∧
      (∃ s, dbF.engineState = some s ∧ s.nextRetryAt = none ∧
        s.lastCycleStatus = some "key_version_mismatch") := by
  have hcget : getCursorDb (acquireCycleLock (persistDeviceConfig db identity "trusted")).2
      = getCursorDb db := by
    rw [getCursorDb_acquireCycleLock, getCursorDb_persistDeviceConfig]
  have houtbox : (acquireCycleLock (persistDeviceConfig db identity "trusted")).2.outbox
      = db.outbox := by
    rw [outbox_acquireCycleLock, outbox_persistDeviceConfig]
  have hpend' : (listPendingOutbox env.now
      (acquireCycleLock (persistDeviceConfig db identity "trusted")).2.outbox 500).isEmpty
      = false := by rw [houtbox]; exact hpend
  have henc' : encryptPendingEvents env identity (listPendingOutbox env.now
      (acquireCycleLock (persistDeviceConfig db identity "trusted")).2.outbox 500)
      = .ok encs := by rw [houtbox]; exact henc
  have hpp := pushPhase_kvm
    (acquireCycleLock (persistDeviceConfig db identity "trusted")).1 (getCursorDb db)
    (acquireCycleLock (persistDeviceConfig db identity "trusted")).2
    [CycleAction.cursorFetch] hpend' henc' hpush hkvm
  rw [houtbox] at hpp
  have hrun : runSyncCycle env db pullFuel = some (cycleFail env
      { (acquireCycleLock (persistDeviceConfig db identity "trusted")).2 with
          outbox := markOutboxDeadRows db.outbox
            ((listPendingOutbox env.now db.outbox 500).map (fun e => e.eventId))
            (some err.toMessage) (some "key_version_mismatch") }
      (([CycleAction.cursorFetch] ++ [CycleAction.listPendingRead])
        ++ [CycleAction.pushRequest (listPendingOutbox env.now db.outbox 500).length])
      (acquireCycleLock (persistDeviceConfig db identity "trusted")).1 (getCursorDb db) 0 0
      "key_version_mismatch" "Key version mismatch — re-pairing required" none) := by
    simp only [runSyncCycle, hid, hdev, hready, htok, hcur, hwm, hcget]
    rw [if_neg (by simp), if_neg (by simp)]
    rw [hpp]
  exact ⟨_, _, hrun, rfl, fun r hr hc => markOutboxDeadRows_mem hr hc, ⟨_, rfl, rfl, rfl⟩⟩

theorem cycle_key_version_mismatch_dead_witness :
    ∃ dbF lockV,
      runSyncCycle fixtureCycleEnvKvm fixtureCycleDb 1 = some (dbF,
        [CycleAction.cursorFetch, CycleAction.listPendingRead,
          CycleAction.pushRequest
            (listPendingOutbox fixtureCycleEnvKvm.now fixtureCycleDb.outbox 500).length],
        ⟨"key_version_mismatch", lockV, 0, 0, getCursorDb fixtureCycleDb, false⟩) ∧
      dbF.outbox = markOutboxDeadRows fixtureCycleDb.outbox
        ((listPendingOutbox fixtureCycleEnvKvm.now fixtureCycleDb.outbox 500).map
          (fun e => e.eventId))
        (some (DeviceSyncError.api 409 "KEY_VERSION_MISMATCH: rotate").toMessage)
        (some "key_version_mismatch") ∧
      (∀ r ∈ dbF.outbox,
        ((listPendingOutbox fixtureCycleEnvKvm.now fixtureCycleDb.outbox 500).map
          (fun e => e.eventId)).contains r.eventId = true →
          r.status = .dead ∧ r.lastErrorCode = some "key_version_mismatch") ∧
      (∃ s, dbF.engineState = some s ∧ s.nextRetryAt = none ∧
        s.lastCycleStatus = some "key_version_mismatch") :=
  cycle_key_version_mismatch_dead fixtureCycleEnvKvm fixtureCycleDb 1 fixtureIdentity
    "dev-1" "tok" ⟨0, none, none⟩ ["enc:p1"] (.api 409 "KEY_VERSION_MISMATCH: rotate")
    rfl rfl rfl rfl rfl rfl (by decide) rfl rfl (by decide)

end Wealthfolio
